import Mathlib

/-!
Verification of the pt-analytics reliability pipeline.

Shallow embedding of the analytics scripts of the repository:
bunching classification (scripts/calculate_bunching_from_arrivals.py),
headway-pattern aggregation (scripts/aggregate_headway_patterns.py),
SRI coarsening (scripts/create_monthly_daily_aggregates.py),
component scoring (scripts/calculate_component_scores.py),
SRI composition (scripts/calculate_sri_scores.py),
stop-event detection (src/processing/stop_detector.py) and
stop matching (src/processing/vehicle_matcher.py).

SQL numeric values are modelled as rationals, SQL integers as naturals
or integers, nullable columns as Option, tables as lists of rows.
-/

namespace PTAnalytics

/-! ## Shared numeric helpers -/

/-- Round-half-away-from-zero to an integer, the rounding mode of SQL
numeric ROUND and of casts to DECIMAL. -/
def roundHalfAway (q : ℚ) : ℤ :=
  if 0 ≤ q then ⌊q + 1/2⌋ else -⌊(-q) + 1/2⌋

/-- ROUND(x, 1): SQL rounding to one decimal place. -/
def round1 (q : ℚ) : ℚ := (roundHalfAway (q * 10) : ℚ) / 10

/-- ROUND(x, 2) or a cast to DECIMAL(5,2): SQL rounding to two decimals. -/
def round2 (q : ℚ) : ℚ := (roundHalfAway (q * 100) : ℚ) / 100

/-- ROUND(x, 4): SQL rounding to four decimals. -/
def round4 (q : ℚ) : ℚ := (roundHalfAway (q * 10000) : ℚ) / 10000

/-! ## Bunching classifier (scripts/calculate_bunching_from_arrivals.py)

The classifier reads two baseline tables.  In the SQL, the hourly
subquery condition is written as
  `rhb.hour_of_day = hour_of_day`;
both sides resolve to the hourly table's own column (the innermost
scope wins in SQL), so the condition is a self-comparison that is
always true.  The embedding keeps that literal behaviour. -/

/-- One row of route_headway_baselines_hourly. -/
structure HourlyBaseline where
  route_id : String
  stop_id : String
  hour_of_day : ℕ
  median_headway_minutes : ℚ
deriving DecidableEq, Repr

/-- One row of route_headway_baselines. -/
structure OverallBaseline where
  route_id : String
  stop_id : String
  median_headway_minutes : ℚ
deriving DecidableEq, Repr

/-- The two baseline tables visible to the bunching query. -/
structure BaselineDb where
  hourly : List HourlyBaseline
  overall : List OverallBaseline
deriving Repr

/-- The correlated hourly-baseline subquery of
calculate_bunching_from_arrivals.py.  The WHERE clause compares
rhb.hour_of_day with the unqualified hour_of_day, which resolves to
rhb.hour_of_day itself, so the arrival's hour never constrains the
lookup; LIMIT 1 without ORDER BY is modelled as the first matching
row. -/
def lookupHourlyBaseline (db : BaselineDb) (route stop : String) : Option ℚ :=
  ((db.hourly.filter (fun rhb =>
      rhb.route_id = route ∧ rhb.stop_id = stop ∧
        rhb.hour_of_day = rhb.hour_of_day)).head?).map
    (·.median_headway_minutes)

/-- The overall-baseline subquery (route and stop only, LIMIT 1). -/
def lookupOverallBaseline (db : BaselineDb) (route stop : String) : Option ℚ :=
  ((db.overall.filter (fun rhb =>
      rhb.route_id = route ∧ rhb.stop_id = stop)).head?).map
    (·.median_headway_minutes)

/-- COALESCE(hourly, overall, 10.0): the expected headway attached to an
arrival. -/
def expected_headway_minutes (db : BaselineDb) (route stop : String) : ℚ :=
  ((lookupHourlyBaseline db route stop).orElse
    (fun _ => lookupOverallBaseline db route stop)).getD 10

/-- The is_bunched CASE of the query: headway below
GREATEST(COALESCE(hourly*0.5, overall*0.5, 5.0), 2.0). -/
def is_bunched (db : BaselineDb) (route stop : String)
    (headway_minutes : ℚ) : Bool :=
  headway_minutes <
    max ((((lookupHourlyBaseline db route stop).map (· * (1/2))).orElse
      (fun _ => (lookupOverallBaseline db route stop).map (· * (1/2)))).getD 5) 2

/-- The hour-specific baseline lookup the claim (and the query's own
comment) describes: the hourly row for the arrival's own hour when one
exists, otherwise the overall row, otherwise 10 minutes.  Written from
the spec's words for comparison with the source behaviour. -/
def claimBaseline (db : BaselineDb) (route stop : String) (hour : ℕ) : ℚ :=
  ((((db.hourly.filter (fun rhb =>
        rhb.route_id = route ∧ rhb.stop_id = stop ∧
          rhb.hour_of_day = hour)).head?).map (·.median_headway_minutes)).orElse
    (fun _ => lookupOverallBaseline db route stop)).getD 10

/-- The claim's classification rule: headway below
max(0.5 * baseline, 2) with the hour-specific baseline. -/
def claimBunched (db : BaselineDb) (route stop : String) (hour : ℕ)
    (headway_minutes : ℚ) : Bool :=
  headway_minutes < max ((1/2) * claimBaseline db route stop hour) 2

/-- A database for the C1 failing input: the hourly table holds a single
row for route 14 at stop S12, learned at hour 5 with a 20-minute
median, and the overall table holds a 10-minute median for the pair. -/
def c1Db : BaselineDb :=
  { hourly := [{ route_id := "14", stop_id := "S12", hour_of_day := 5,
                 median_headway_minutes := 20 }],
    overall := [{ route_id := "14", stop_id := "S12",
                  median_headway_minutes := 10 }] }

/-! ## Incremental pattern merges (C3)

Row-level embedding of the two cited ON CONFLICT DO UPDATE merges. -/

/-- Statistic and count fields of one headway_patterns row
(aggregate_headway_patterns.py); the key columns are omitted because
the merge acts on one bucket. -/
structure HeadwayPattern where
  median_headway_minutes : ℚ
  avg_headway_minutes : ℚ
  std_headway_minutes : ℚ
  min_headway_minutes : ℚ
  max_headway_minutes : ℚ
  coefficient_of_variation : ℚ
  bunching_rate : ℚ
  observation_count : ℕ
deriving DecidableEq, Repr

/-- The DO UPDATE SET clause of aggregate_headway_patterns.py: every
statistic field is replaced by the incoming (EXCLUDED) value and the
observation counts are added. -/
def mergeHeadwayPattern (old excluded : HeadwayPattern) : HeadwayPattern :=
  { median_headway_minutes := excluded.median_headway_minutes
    avg_headway_minutes := excluded.avg_headway_minutes
    std_headway_minutes := excluded.std_headway_minutes
    min_headway_minutes := excluded.min_headway_minutes
    max_headway_minutes := excluded.max_headway_minutes
    coefficient_of_variation := excluded.coefficient_of_variation
    bunching_rate := excluded.bunching_rate
    observation_count := old.observation_count + excluded.observation_count }

/-- Statistic and count fields of one bunching_by_route_stop_hour row
(calculate_bunching_from_arrivals.py). -/
structure BunchingRow where
  bunching_rate_pct : ℚ
  avg_headway_minutes : ℚ
  expected_headway_minutes : ℚ
  total_arrivals : ℕ
  bunched_arrivals : ℕ
  observation_count : ℕ
deriving DecidableEq, Repr

/-- The DO UPDATE SET clause of calculate_bunching_from_arrivals.py:
rates are blended 0.7 old / 0.3 new, the expected headway is replaced,
and all three counters are added. -/
def mergeBunchingRow (old excluded : BunchingRow) : BunchingRow :=
  { bunching_rate_pct :=
      old.bunching_rate_pct * (7/10) + excluded.bunching_rate_pct * (3/10)
    avg_headway_minutes :=
      old.avg_headway_minutes * (7/10) + excluded.avg_headway_minutes * (3/10)
    expected_headway_minutes := excluded.expected_headway_minutes
    total_arrivals := old.total_arrivals + excluded.total_arrivals
    bunched_arrivals := old.bunched_arrivals + excluded.bunched_arrivals
    observation_count := old.observation_count + excluded.observation_count }

/-- A stored bucket and an incoming batch used as the C3 counterexample. -/
def c3Old : HeadwayPattern :=
  { median_headway_minutes := 10, avg_headway_minutes := 11,
    std_headway_minutes := 2, min_headway_minutes := 6,
    max_headway_minutes := 18, coefficient_of_variation := 2/11,
    bunching_rate := 20, observation_count := 5 }

def c3Batch : HeadwayPattern :=
  { median_headway_minutes := 8, avg_headway_minutes := 9,
    std_headway_minutes := 3, min_headway_minutes := 4,
    max_headway_minutes := 15, coefficient_of_variation := 1/3,
    bunching_rate := 25, observation_count := 3 }

/-! ## Component scorer (scripts/calculate_component_scores.py)

Scores are linear interpolations between configured anchors, clamped
with GREATEST(0, LEAST(100, ...)) and cast to DECIMAL(5,2).  SQL
raises an error on division by zero, so the interpolation is modelled
with an Option-valued division. -/

/-- Division as SQL performs it: no value when the divisor is zero. -/
def safeDiv (a b : ℚ) : Option ℚ := if b = 0 then none else some (a / b)

/-- The anchor and weight columns of the active sri_config row. -/
structure SriConfig where
  headway_weight : ℚ
  schedule_weight : ℚ
  journey_weight : ℚ
  service_weight : ℚ
  headway_cv_excellent : ℚ
  headway_cv_poor : ℚ
  schedule_excellent : ℚ
  schedule_poor : ℚ
  journey_cv_excellent : ℚ
  journey_cv_poor : ℚ
  delivery_excellent : ℚ
  delivery_poor : ℚ
deriving DecidableEq, Repr

/-- Headway-consistency score: lower coefficient of variation is
better; 100 - ((cv - excellent) / (poor - excellent)) * 100, clamped
to [0, 100], cast to DECIMAL(5,2). -/
def headwayScore (cfg : SriConfig) (cv : ℚ) : Option ℚ :=
  (safeDiv (cv - cfg.headway_cv_excellent)
      (cfg.headway_cv_poor - cfg.headway_cv_excellent)).map
    (fun t => round2 (max 0 (min 100 (100 - t * 100))))

/-- Journey-time-consistency score, same shape as the headway score
with the journey anchors. -/
def journeyScore (cfg : SriConfig) (avg_cv : ℚ) : Option ℚ :=
  (safeDiv (avg_cv - cfg.journey_cv_excellent)
      (cfg.journey_cv_poor - cfg.journey_cv_excellent)).map
    (fun t => round2 (max 0 (min 100 (100 - t * 100))))

/-- Service-delivery score: higher delivery rate is better;
((rate - poor) / (excellent - poor)) * 100, clamped, cast. -/
def deliveryScore (cfg : SriConfig) (rate : ℚ) : Option ℚ :=
  (safeDiv (rate - cfg.delivery_poor)
      (cfg.delivery_excellent - cfg.delivery_poor)).map
    (fun t => round2 (max 0 (min 100 (t * 100))))

/-- A configuration with the default anchors of the spec for witnesses:
cv 0.1 excellent / 0.8 poor, delivery 95 excellent / 50 poor and the
40/30/20/10 weights. -/
def defaultConfig : SriConfig :=
  { headway_weight := 2/5, schedule_weight := 3/10,
    journey_weight := 1/5, service_weight := 1/10,
    headway_cv_excellent := 1/10, headway_cv_poor := 4/5,
    schedule_excellent := 95, schedule_poor := 50,
    journey_cv_excellent := 1/10, journey_cv_poor := 4/5,
    delivery_excellent := 95, delivery_poor := 50 }

/-! ## SRI composer (scripts/calculate_sri_scores.py) -/

/-- The route-level row produced by the composer for one
(route, direction, operator, time-bucket); only the fields the claims
mention are kept. -/
structure SriOutput where
  headway_consistency_score : ℚ
  schedule_adherence_score : ℚ
  journey_time_consistency_score : ℚ
  service_delivery_score : ℚ
  sri_score : ℚ
  sri_grade : String
  data_completeness : ℚ
deriving DecidableEq, Repr

/-- The A/B/C/D/F bucketing shared by the scorer and composer. -/
def gradeOf (score : ℚ) : String :=
  if score ≥ 90 then "A"
  else if score ≥ 80 then "B"
  else if score ≥ 70 then "C"
  else if score ≥ 60 then "D"
  else "F"

/-- The SELECT of calculate_sri_scores.py building one SRI row from the
four optional component scores: missing components are replaced by 50
via COALESCE, the composite is the weighted sum cast to DECIMAL(5,2),
and the grade CASE recomputes the unrounded weighted sum in each
branch. -/
def composeSri (cfg : SriConfig) (hc sa jt sd : Option ℚ) : SriOutput :=
  let headway_score := hc.getD 50
  let schedule_score := sa.getD 50
  let journey_score := jt.getD 50
  let service_score := sd.getD 50
  let weighted :=
    headway_score * cfg.headway_weight + schedule_score * cfg.schedule_weight +
      journey_score * cfg.journey_weight + service_score * cfg.service_weight
  { headway_consistency_score := headway_score
    schedule_adherence_score := schedule_score
    journey_time_consistency_score := journey_score
    service_delivery_score := service_score
    sri_score := round2 weighted
    sri_grade :=
      if headway_score * cfg.headway_weight + schedule_score * cfg.schedule_weight +
          journey_score * cfg.journey_weight + service_score * cfg.service_weight ≥ 90
      then "A"
      else if headway_score * cfg.headway_weight + schedule_score * cfg.schedule_weight +
          journey_score * cfg.journey_weight + service_score * cfg.service_weight ≥ 80
      then "B"
      else if headway_score * cfg.headway_weight + schedule_score * cfg.schedule_weight +
          journey_score * cfg.journey_weight + service_score * cfg.service_weight ≥ 70
      then "C"
      else if headway_score * cfg.headway_weight + schedule_score * cfg.schedule_weight +
          journey_score * cfg.journey_weight + service_score * cfg.service_weight ≥ 60
      then "D"
      else "F"
    data_completeness :=
      ((if hc.isSome then 1 else 0) + (if sa.isSome then 1 else 0) +
        (if jt.isSome then 1 else 0) + (if sd.isSome then 1 else 0)) * 25 }

/-! ## Stop event detector (src/processing/stop_detector.py)

find_stop_events groups positions by vehicle (dict insertion order),
sorts each vehicle timeline by timestamp (Python sort, stable), and
scans it with two indices: an anchor position i and a cursor j that
advances while position j stays inside an axis-aligned box of 0.00005
degrees around the anchor; a run of 2 or more samples becomes one
event with dwell_time_seconds = count * 10. -/

/-- One element of the vehicle_positions input list. -/
structure VehiclePos where
  vehicle_id : String
  latitude : ℚ
  longitude : ℚ
  timestamp : ℤ
  route_id : Option String
deriving DecidableEq, Repr

/-- One emitted stop event. -/
structure DwellEvent where
  vehicle_id : String
  route_id : Option String
  latitude : ℚ
  longitude : ℚ
  stop_timestamp : ℤ
  dwell_time_seconds : ℕ
  poll_count : ℕ
deriving DecidableEq, Repr

/-- The same-location test of the inner loop: both coordinate
differences to the anchor are strictly below 0.00005 degrees. -/
def sameBox (anchor q : VehiclePos) : Bool :=
  |q.latitude - anchor.latitude| < 5/100000 ∧
    |q.longitude - anchor.longitude| < 5/100000

/-- The event record built from an anchor position and a sample count. -/
def mkDwellEvent (anchor : VehiclePos) (dwell_count : ℕ) : DwellEvent :=
  { vehicle_id := anchor.vehicle_id
    route_id := anchor.route_id
    latitude := anchor.latitude
    longitude := anchor.longitude
    stop_timestamp := anchor.timestamp
    dwell_time_seconds := dwell_count * 10
    poll_count := dwell_count }

/-- One step of the while loop over one vehicle's sorted timeline,
carrying the current anchor (positions at index i) and the dwell count
accumulated so far.  While the next sample stays inside the anchor's
box the count grows (the inner while on j); when it leaves the box, a
count of at least 2 emits an event and the loop restarts at the sample
that broke the run (i = j), a count of 1 restarts there as well
(i = i + 1); the end of the list closes the pending run the same
way. -/
def detectLoop (anchor : VehiclePos) (dwell_count : ℕ) :
    List VehiclePos → List DwellEvent
  | [] => if 2 ≤ dwell_count then [mkDwellEvent anchor dwell_count] else []
  | q :: rest =>
    if sameBox anchor q then detectLoop anchor (dwell_count + 1) rest
    else if 2 ≤ dwell_count then
      mkDwellEvent anchor dwell_count :: detectLoop q 1 rest
    else detectLoop q 1 rest

/-- The outer while loop: start a run at the first position. -/
def detectRuns : List VehiclePos → List DwellEvent
  | [] => []
  | p :: rest => detectLoop p 1 rest

/-- Stable insertion into a timestamp-sorted list: the new element goes
in front of the first element whose timestamp is not smaller, so
elements with equal timestamps keep their original order.  Models the
stable Python sort of one vehicle's positions. -/
def insertByTs (x : VehiclePos) : List VehiclePos → List VehiclePos
  | [] => [x]
  | h :: t => if h.timestamp < x.timestamp then h :: insertByTs x t else x :: h :: t

/-- Stable sort by timestamp (positions.sort in the source). -/
def sortByTs : List VehiclePos → List VehiclePos
  | [] => []
  | x :: xs => insertByTs x (sortByTs xs)

/-- The vehicle ids in order of first appearance: the iteration order
of the by_vehicle dict. -/
def vehicleIds (ps : List VehiclePos) : List String :=
  (ps.map (·.vehicle_id)).eraseDups

/-- find_stop_events: group by vehicle, sort each timeline by
timestamp, and scan it for dwell runs. -/
def find_stop_events (vehicle_positions : List VehiclePos) : List DwellEvent :=
  (vehicleIds vehicle_positions).flatMap (fun vid =>
    detectRuns (sortByTs (vehicle_positions.filter (fun p => p.vehicle_id = vid))))

/-- The spec's same-location relation between two adjacent positions:
great-circle displacement below 5 meters, written with the haversine
formula on a sphere of radius 6371000 meters (degrees converted to
radians). -/
def specSameLocation (p q : VehiclePos) : Prop :=
  2 * 6371000 *
    Real.arcsin (Real.sqrt (
      Real.sin (((q.latitude - p.latitude : ℚ) : ℝ) * Real.pi / 180 / 2) ^ 2 +
        Real.cos (((p.latitude : ℚ) : ℝ) * Real.pi / 180) *
          Real.cos (((q.latitude : ℚ) : ℝ) * Real.pi / 180) *
          Real.sin (((q.longitude - p.longitude : ℚ) : ℝ) * Real.pi / 180 / 2) ^ 2)) < 5

/-- A decomposition of one timeline into consecutive runs under an
adjacency relation R: the runs concatenate back to the timeline, each
run is a nonempty R-chain, and consecutive runs cannot be merged
because the last sample of one run and the first sample of the next
are not R-related. -/
def IsChainRunDecomp (R : VehiclePos → VehiclePos → Prop)
    (ps : List VehiclePos) (runs : List (List VehiclePos)) : Prop :=
  runs.flatten = ps ∧ (∀ r ∈ runs, r ≠ []) ∧ (∀ r ∈ runs, List.Chain' R r) ∧
    List.Chain' (fun r₁ r₂ => ∀ x ∈ r₁.getLast?, ∀ y ∈ r₂.head?, ¬ R x y) runs

/-- The event the claim associates to one run: anchored at the run's
first sample, with dwell_seconds = sample_count * 10. -/
def specEventOf : List VehiclePos → DwellEvent
  | [] => mkDwellEvent ⟨"", 0, 0, 0, none⟩ 0
  | a :: t => mkDwellEvent a (t.length + 1)

/-- The claim's input/output contract for the detector on one
timeline: the output is exactly one event per run of at least two
consecutive same-location samples of some run decomposition under the
spec's great-circle relation. -/
def SpecDetectorClaim (ps : List VehiclePos) (out : List DwellEvent) : Prop :=
  ∃ runs, IsChainRunDecomp specSameLocation ps runs ∧
    out = (runs.filter (fun r => 2 ≤ r.length)).map specEventOf

/-- A decomposition into the anchor-based runs the code actually
produces: each run is its first sample (the anchor) followed by
samples inside the anchor's coordinate box, and the sample starting
the next run is outside the previous anchor's box. -/
def IsAnchorRunDecomp (ps : List VehiclePos) (runs : List (List VehiclePos)) : Prop :=
  runs.flatten = ps ∧
    (∀ r ∈ runs, ∃ a t, r = a :: t ∧ ∀ q ∈ t, sameBox a q = true) ∧
    List.Chain' (fun r₁ r₂ => ∀ x ∈ r₁.head?, ∀ y ∈ r₂.head?, sameBox x y = false) runs

/-- C4 counterexample input: one vehicle drifting north along one
meridian in steps of 0.00003 degrees of latitude (about 3.34 meters of
great-circle displacement each, well below the 5 meter tolerance),
so that the third sample leaves the first sample's 0.00005 degree box. -/
def c4p0 : VehiclePos :=
  { vehicle_id := "v1", latitude := 534/10, longitude := -29825/10000,
    timestamp := 0, route_id := some "14" }

def c4p1 : VehiclePos :=
  { vehicle_id := "v1", latitude := 534/10 + 3/100000, longitude := -29825/10000,
    timestamp := 10, route_id := some "14" }

def c4p2 : VehiclePos :=
  { vehicle_id := "v1", latitude := 534/10 + 6/100000, longitude := -29825/10000,
    timestamp := 20, route_id := some "14" }

/-! ## Stop matcher (src/processing/vehicle_matcher.py)

find_nearest_stop_for_route_postgis selects, among the stops joined to
the route's patterns (filtered by direction when one is given) and
lying within the radius (ST_DWithin), the row with the smallest
ST_Distance (ORDER BY distance LIMIT 1).  ST_Distance on geography is
the geodesic distance computed by PostGIS; it is modelled as an
abstract distance function carried by the database value. -/

/-- One row of txc_stops; geog is the (lon, lat) pair of the stop. -/
structure TxcStop where
  naptan_id : String
  stop_name : String
  geog : ℚ × ℚ
deriving DecidableEq, Repr

/-- One row of txc_pattern_stops. -/
structure TxcPatternStop where
  pattern_id : String
  naptan_id : String
deriving DecidableEq, Repr

/-- One row of txc_route_patterns. -/
structure TxcRoutePattern where
  pattern_id : String
  route_name : String
  direction : String
deriving DecidableEq, Repr

/-- The stop tables together with the ST_Distance geography metric. -/
structure StopsDb where
  stops : List TxcStop
  pattern_stops : List TxcPatternStop
  route_patterns : List TxcRoutePattern
  st_distance : ℚ × ℚ → ℚ × ℚ → ℚ

/-- The JOIN chain of the query: the stop appears on some pattern of
the given route, and of the given direction when one is supplied. -/
def servedByRoute (db : StopsDb) (s : TxcStop) (route : String)
    (direction : Option String) : Bool :=
  db.pattern_stops.any (fun ps =>
    ps.naptan_id = s.naptan_id ∧
      db.route_patterns.any (fun rp =>
        decide (rp.pattern_id = ps.pattern_id) &&
          decide (rp.route_name = route) &&
          (match direction with
            | some d => decide (rp.direction = d)
            | none => true)))

/-- The candidate rows of the query: route-scoped stops within the
radius (ST_DWithin). -/
def stopCandidates (db : StopsDb) (lat lon : ℚ) (route : String)
    (direction : Option String) (radius_m : ℚ) : List TxcStop :=
  db.stops.filter (fun s =>
    servedByRoute db s route direction ∧
      db.st_distance s.geog (lon, lat) ≤ radius_m)

/-- ORDER BY distance LIMIT 1: the first row carrying the minimum
distance. -/
def pickNearest (db : StopsDb) (lat lon : ℚ) :
    List TxcStop → Option TxcStop
  | [] => none
  | s :: rest =>
    match pickNearest db lat lon rest with
    | none => some s
    | some b =>
      if db.st_distance s.geog (lon, lat) ≤ db.st_distance b.geog (lon, lat)
      then some s else some b

/-- find_nearest_stop_for_route_postgis: the nearest candidate with
its name and distance, none when no candidate is within the radius. -/
def find_nearest_stop_for_route_postgis (db : StopsDb) (lat lon : ℚ)
    (route_name : String) (direction : Option String) (radius_m : ℚ) :
    Option (String × String × ℚ) :=
  (pickNearest db lat lon (stopCandidates db lat lon route_name direction radius_m)).map
    (fun s => (s.naptan_id, s.stop_name, db.st_distance s.geog (lon, lat)))

/-- Python truthiness of an optional string: None and the empty string
are falsy. -/
def truthyString : Option String → Option String
  | none => none
  | some s => if s = "" then none else some s

/-- Round-half-to-even to an integer: Python's round. -/
def roundHalfEven (q : ℚ) : ℤ :=
  if q - ⌊q⌋ < 1/2 then ⌊q⌋
  else if 1/2 < q - ⌊q⌋ then ⌊q⌋ + 1
  else if ⌊q⌋ % 2 = 0 then ⌊q⌋ else ⌊q⌋ + 1

/-- round(x, 1) in Python. -/
def pyRound1 (q : ℚ) : ℚ := (roundHalfEven (q * 10) : ℚ) / 10

/-- The vehicle_position dict fed to match_vehicle_to_stop. -/
structure VehicleView where
  vehicle_id : String
  latitude : ℚ
  longitude : ℚ
  timestamp : Option ℤ
  stop_timestamp : Option ℤ
  route_name : Option String
  direction : Option String
deriving DecidableEq, Repr

/-- The dict returned by match_vehicle_to_stop. -/
structure MatchResult where
  vehicle_id : String
  route_name : Option String
  direction : Option String
  naptan_id : Option String
  stop_name : Option String
  distance_m : Option ℚ
  timestamp : Option ℤ
  matched : Bool
deriving DecidableEq, Repr

/-- match_vehicle_to_stop: unmatched when the route is falsy or no
candidate lies within 30 meters, otherwise the nearest route-scoped
candidate. -/
def match_vehicle_to_stop (db : StopsDb) (vp : VehicleView) : MatchResult :=
  let timestamp :=
    match vp.timestamp with
    | some t => some t
    | none => vp.stop_timestamp
  match truthyString vp.route_name with
  | none =>
    { vehicle_id := vp.vehicle_id, route_name := none,
      direction := vp.direction, naptan_id := none, stop_name := none,
      distance_m := none, timestamp := timestamp, matched := false }
  | some route =>
    match find_nearest_stop_for_route_postgis db vp.latitude vp.longitude
        route (truthyString vp.direction) 30 with
    | none =>
      { vehicle_id := vp.vehicle_id, route_name := vp.route_name,
        direction := vp.direction, naptan_id := none, stop_name := none,
        distance_m := none, timestamp := timestamp, matched := false }
    | some (naptan_id, stop_name, distance) =>
      { vehicle_id := vp.vehicle_id, route_name := vp.route_name,
        direction := vp.direction, naptan_id := some naptan_id,
        stop_name := some stop_name, distance_m := some (pyRound1 distance),
        timestamp := timestamp, matched := true }

/-! ## SRI coarsening (scripts/create_monthly_daily_aggregates.py)

The single service_reliability_index table holds hourly rows
(day_of_week and hour set), daily rows (hour unset) and monthly rows
(day_of_week and hour unset).  The script derives the daily rows by
averaging the hourly rows of each
(route_name, direction, operator, year, month, day_of_week) group and
the monthly rows by averaging the daily rows of each
(route_name, direction, operator, year, month) group, upserting with
full-replace semantics on the statistic fields and observation_count.

The table's DDL (its unique index over the seven key columns) is not
in the repository.  Modelled from the spec: exactly one row exists per
(entity, time-bucket), so the upsert's conflict target is the
seven-column key with unset (NULL) fields comparing equal, modelled as
Option-valued key components with ordinary equality. -/

/-- One row of service_reliability_index. -/
structure SriRow where
  route_name : String
  direction : String
  operator : String
  year : ℤ
  month : ℤ
  day_of_week : Option ℕ
  hour : Option ℕ
  headway_consistency_score : ℚ
  schedule_adherence_score : ℚ
  journey_time_consistency_score : ℚ
  service_delivery_score : ℚ
  headway_weight : ℚ
  schedule_weight : ℚ
  journey_time_weight : ℚ
  service_delivery_weight : ℚ
  sri_score : ℚ
  sri_grade : String
  observation_count : ℕ
  data_completeness : ℚ
deriving DecidableEq, Repr

/-- The seven key columns of service_reliability_index. -/
structure SriKey where
  route_name : String
  direction : String
  operator : String
  year : ℤ
  month : ℤ
  day_of_week : Option ℕ
  hour : Option ℕ
deriving DecidableEq, Repr

/-- The conflict-target key of the upserts. -/
def sriKey (r : SriRow) : SriKey :=
  { route_name := r.route_name, direction := r.direction,
    operator := r.operator, year := r.year, month := r.month,
    day_of_week := r.day_of_week, hour := r.hour }

/-- The DO UPDATE SET clause shared by the daily and monthly
statements: the four component scores, sri_score, sri_grade and
observation_count are replaced by the incoming (EXCLUDED) values; the
weights and data_completeness columns are not in the SET list and keep
their stored values. -/
def replaceCoarse (old excluded : SriRow) : SriRow :=
  { old with
    headway_consistency_score := excluded.headway_consistency_score
    schedule_adherence_score := excluded.schedule_adherence_score
    journey_time_consistency_score := excluded.journey_time_consistency_score
    service_delivery_score := excluded.service_delivery_score
    sri_score := excluded.sri_score
    sri_grade := excluded.sri_grade
    observation_count := excluded.observation_count }

/-- INSERT ... ON CONFLICT for one row: when a row with the same key
exists it is updated in place by the replacement function, otherwise
the new row is appended. -/
def upsertRow (repl : SriRow → SriRow → SriRow) (s : List SriRow)
    (r : SriRow) : List SriRow :=
  if s.any (fun x => sriKey x = sriKey r) then
    s.map (fun x => if sriKey x = sriKey r then repl x r else x)
  else s ++ [r]

/-- INSERT ... ON CONFLICT for a batch of computed rows. -/
def upsertAll (repl : SriRow → SriRow → SriRow) (s : List SriRow)
    (rs : List SriRow) : List SriRow :=
  rs.foldl (upsertRow repl) s

/-- AVG over a group of values. -/
def listAvg (l : List ℚ) : ℚ := l.sum / l.length

/-- The hourly rows (day_of_week IS NOT NULL AND hour IS NOT NULL) the
daily statement aggregates. -/
def dailySource (s : List SriRow) : List SriRow :=
  s.filter (fun x => x.day_of_week.isSome && x.hour.isSome)

/-- The daily rows (day_of_week IS NOT NULL AND hour IS NULL) the
monthly statement aggregates. -/
def monthlySource (s : List SriRow) : List SriRow :=
  s.filter (fun x => x.day_of_week.isSome && !x.hour.isSome)

/-- GROUP BY key of the daily statement. -/
structure DailyKey where
  route_name : String
  direction : String
  operator : String
  year : ℤ
  month : ℤ
  day_of_week : Option ℕ
deriving DecidableEq, Repr

def dailyGroupKey (x : SriRow) : DailyKey :=
  { route_name := x.route_name, direction := x.direction,
    operator := x.operator, year := x.year, month := x.month,
    day_of_week := x.day_of_week }

/-- GROUP BY key of the monthly statement. -/
structure MonthlyKey where
  route_name : String
  direction : String
  operator : String
  year : ℤ
  month : ℤ
deriving DecidableEq, Repr

def monthlyGroupKey (x : SriRow) : MonthlyKey :=
  { route_name := x.route_name, direction := x.direction,
    operator := x.operator, year := x.year, month := x.month }

/-- The SELECT list shared by both statements: averaged scores rounded
to two decimals, averaged weights, averaged sri_score rounded to two
decimals, the grade CASE on the unrounded average, summed
observation_count and averaged data_completeness. -/
def coarseStats (ch : List SriRow) (base : SriRow) : SriRow :=
  { base with
    headway_consistency_score :=
      round2 (listAvg (ch.map (·.headway_consistency_score)))
    schedule_adherence_score :=
      round2 (listAvg (ch.map (·.schedule_adherence_score)))
    journey_time_consistency_score :=
      round2 (listAvg (ch.map (·.journey_time_consistency_score)))
    service_delivery_score :=
      round2 (listAvg (ch.map (·.service_delivery_score)))
    headway_weight := listAvg (ch.map (·.headway_weight))
    schedule_weight := listAvg (ch.map (·.schedule_weight))
    journey_time_weight := listAvg (ch.map (·.journey_time_weight))
    service_delivery_weight := listAvg (ch.map (·.service_delivery_weight))
    sri_score := round2 (listAvg (ch.map (·.sri_score)))
    sri_grade := gradeOf (listAvg (ch.map (·.sri_score)))
    observation_count := (ch.map (·.observation_count)).sum
    data_completeness := listAvg (ch.map (·.data_completeness)) }

/-- The daily aggregate row of one group (hour set to NULL). -/
def mkDailyRow (k : DailyKey) (ch : List SriRow) : SriRow :=
  coarseStats ch
    { route_name := k.route_name, direction := k.direction,
      operator := k.operator, year := k.year, month := k.month,
      day_of_week := k.day_of_week, hour := none,
      headway_consistency_score := 0, schedule_adherence_score := 0,
      journey_time_consistency_score := 0, service_delivery_score := 0,
      headway_weight := 0, schedule_weight := 0,
      journey_time_weight := 0, service_delivery_weight := 0,
      sri_score := 0, sri_grade := "", observation_count := 0,
      data_completeness := 0 }

/-- The monthly aggregate row of one group (day_of_week and hour set
to NULL). -/
def mkMonthlyRow (k : MonthlyKey) (ch : List SriRow) : SriRow :=
  coarseStats ch
    { route_name := k.route_name, direction := k.direction,
      operator := k.operator, year := k.year, month := k.month,
      day_of_week := none, hour := none,
      headway_consistency_score := 0, schedule_adherence_score := 0,
      journey_time_consistency_score := 0, service_delivery_score := 0,
      headway_weight := 0, schedule_weight := 0,
      journey_time_weight := 0, service_delivery_weight := 0,
      sri_score := 0, sri_grade := "", observation_count := 0,
      data_completeness := 0 }

/-- The rows computed by the daily SELECT, one per group of the hourly
source rows. -/
def dailyRows (s : List SriRow) : List SriRow :=
  let src := dailySource s
  ((src.map dailyGroupKey).dedup).map (fun k =>
    mkDailyRow k (src.filter (fun x => dailyGroupKey x = k)))

/-- The rows computed by the monthly SELECT, one per group of the
daily source rows. -/
def monthlyRows (s : List SriRow) : List SriRow :=
  let src := monthlySource s
  ((src.map monthlyGroupKey).dedup).map (fun k =>
    mkMonthlyRow k (src.filter (fun x => monthlyGroupKey x = k)))

/-- Statement 1 of the script: upsert the daily aggregates. -/
def dailyStep (s : List SriRow) : List SriRow :=
  upsertAll replaceCoarse s (dailyRows s)

/-- Statement 2 of the script: upsert the monthly aggregates. -/
def monthlyStep (s : List SriRow) : List SriRow :=
  upsertAll replaceCoarse s (monthlyRows s)

/-- create_monthly_daily_aggregates on the service_reliability_index
table: the daily statement followed by the monthly statement (the
third statement writes the separate network_reliability_index table
and does not feed back into this one). -/
def create_monthly_daily_aggregates (s : List SriRow) : List SriRow :=
  monthlyStep (dailyStep s)

/-! ## SRI composition over the component tables (C9)

The component_scores CTE chains three FULL OUTER JOINs over the four
component-score tables, keyed on route/direction/operator/year/month
with IS NOT DISTINCT FROM on day_of_week and hour, the later joins
using COALESCE over the earlier tables' key columns.  Score and key
columns of the component tables are written NOT NULL by
calculate_component_scores.py, so a component is NULL in the joined
row exactly when its table has no row for the key. -/

/-- One row of a component-score table; all four tables share this
shape for the columns the composer reads. -/
structure ComponentScoreRow where
  route_name : String
  direction : String
  operator : String
  year : ℤ
  month : ℤ
  day_of_week : Option ℕ
  hour : Option ℕ
  score : ℚ
  observation_count : ℕ
deriving DecidableEq, Repr

/-- FULL OUTER JOIN of two lists of rows under a join predicate: inner
matches, left rows with no partner, and right rows with no partner. -/
def fullJoin {α β : Type} (p : α → β → Bool) (A : List α) (B : List β) :
    List (Option α × Option β) :=
  A.flatMap (fun a =>
    let ms := B.filter (p a)
    if ms.isEmpty then [(some a, none)] else ms.map (fun b => (some a, some b))) ++
  (B.filter (fun b => !A.any (fun a => p a b))).map (fun b => (none, some b))

/-- The key columns of a joined prefix, coalesced left to right as the
SQL COALESCE chains do; none when every table of the prefix lacks the
row. -/
structure CoalescedKey where
  route_name : Option String
  direction : Option String
  operator : Option String
  year : Option ℤ
  month : Option ℤ
  day_of_week : Option (Option ℕ)
  hour : Option (Option ℕ)
deriving DecidableEq, Repr

/-- The coalesced key of one optional component row. -/
def keyOfRow : Option ComponentScoreRow → CoalescedKey
  | none =>
    { route_name := none, direction := none, operator := none,
      year := none, month := none, day_of_week := none, hour := none }
  | some r =>
    { route_name := some r.route_name, direction := some r.direction,
      operator := some r.operator, year := some r.year,
      month := some r.month, day_of_week := some r.day_of_week,
      hour := some r.hour }

/-- COALESCE of two coalesced keys, column by column. -/
def coalesceKey (k₁ k₂ : CoalescedKey) : CoalescedKey :=
  { route_name := k₁.route_name.orElse (fun _ => k₂.route_name)
    direction := k₁.direction.orElse (fun _ => k₂.direction)
    operator := k₁.operator.orElse (fun _ => k₂.operator)
    year := k₁.year.orElse (fun _ => k₂.year)
    month := k₁.month.orElse (fun _ => k₂.month)
    day_of_week := k₁.day_of_week.orElse (fun _ => k₂.day_of_week)
    hour := k₁.hour.orElse (fun _ => k₂.hour) }

/-- The ON condition against the next table: plain SQL equality on the
first five columns (false when the coalesced side is NULL) and
IS NOT DISTINCT FROM on day_of_week and hour (NULL matches NULL, which
cannot occur here because a coalesced key of a present row carries
both fields). -/
def joinCond (k : CoalescedKey) (r : ComponentScoreRow) : Bool :=
  k.route_name = some r.route_name && k.direction = some r.direction &&
    k.operator = some r.operator && k.year = some r.year &&
    k.month = some r.month && k.day_of_week = some r.day_of_week &&
    k.hour = some r.hour

/-- One fully joined row: the four optional component rows. -/
structure JoinedComponents where
  hc : Option ComponentScoreRow
  sa : Option ComponentScoreRow
  jt : Option ComponentScoreRow
  sd : Option ComponentScoreRow
deriving DecidableEq, Repr

/-- The component_scores CTE: headway FULL OUTER JOIN schedule, then
journey, then delivery, with the later ON conditions reading the
COALESCEd keys of the earlier tables. -/
def componentScoresCte (hcT saT jtT sdT : List ComponentScoreRow) :
    List JoinedComponents :=
  let j1 := fullJoin (fun hc sa => joinCond (keyOfRow (some hc)) sa) hcT saT
  let j2 := fullJoin (fun x jt =>
    joinCond (coalesceKey (keyOfRow x.1) (keyOfRow x.2)) jt) j1 jtT
  let j3 := fullJoin (fun y sd =>
    joinCond (coalesceKey (coalesceKey
      (keyOfRow (y.1.bind (·.1))) (keyOfRow (y.1.bind (·.2))))
      (keyOfRow y.2)) sd) j2 sdT
  j3.map (fun y =>
    { hc := y.1.bind (fun x => x.1.bind (·.1))
      sa := y.1.bind (fun x => x.1.bind (·.2))
      jt := y.1.bind (·.2)
      sd := y.2 })

/-- total_observations of a joined row:
COALESCE(obs, 0) summed over the four components. -/
def totalObservations (j : JoinedComponents) : ℕ :=
  (j.hc.map (·.observation_count)).getD 0 +
    (j.sa.map (·.observation_count)).getD 0 +
    (j.jt.map (·.observation_count)).getD 0 +
    (j.sd.map (·.observation_count)).getD 0

/-- The INSERT SELECT of calculate_sri_scores.py: joined rows with at
least 10 total observations, composed with the active weights. -/
def sriEmittedRows (cfg : SriConfig) (hcT saT jtT sdT : List ComponentScoreRow) :
    List SriOutput :=
  ((componentScoresCte hcT saT jtT sdT).filter
      (fun j => 10 ≤ totalObservations j)).map
    (fun j => composeSri cfg (j.hc.map (·.score)) (j.sa.map (·.score))
      (j.jt.map (·.score)) (j.sd.map (·.score)))

/-- A configuration whose poor and excellent anchors coincide, used to
reach the division-by-zero branch of the scorer. -/
def equalAnchorConfig : SriConfig :=
  { headway_weight := 2/5, schedule_weight := 3/10,
    journey_weight := 1/5, service_weight := 1/10,
    headway_cv_excellent := 1/2, headway_cv_poor := 1/2,
    schedule_excellent := 95, schedule_poor := 50,
    journey_cv_excellent := 1/2, journey_cv_poor := 1/2,
    delivery_excellent := 70, delivery_poor := 70 }

/-- Scenario-3 database: stop QS5 serves route 14 outbound and lies
12 meters from the query point; stop XX1 serves only route 7 and lies
5 meters from it.  The stop list enumerates the nearer off-route stop
first. -/
def c5Db : StopsDb :=
  { stops := [{ naptan_id := "XX1", stop_name := "Off Route", geog := (2, 0) },
              { naptan_id := "QS5", stop_name := "Queen Square", geog := (1, 0) }],
    pattern_stops := [{ pattern_id := "P14", naptan_id := "QS5" },
                      { pattern_id := "P7", naptan_id := "XX1" }],
    route_patterns := [{ pattern_id := "P14", route_name := "14", direction := "outbound" },
                       { pattern_id := "P7", route_name := "7", direction := "outbound" }],
    st_distance := fun g _ => if g = (1, 0) then 12 else if g = (2, 0) then 5 else 100 }

/-- The scenario-3 stop event as the matcher sees it. -/
def c5Vp : VehicleView :=
  { vehicle_id := "V1", latitude := 534077/10000, longitude := -29825/10000,
    timestamp := some 0, stop_timestamp := none,
    route_name := some "14", direction := some "outbound" }

/-- The number of the four component scores present in a joined row. -/
def presentComponents (j : JoinedComponents) : ℕ :=
  (if j.hc.isSome then 1 else 0) + (if j.sa.isSome then 1 else 0) +
    (if j.jt.isSome then 1 else 0) + (if j.sd.isSome then 1 else 0)

/-- A single headway-consistency row used as the C9 witness: the other
three component tables are empty, so the emitted SRI row has exactly
one present component. -/
def c9HcRow : ComponentScoreRow :=
  { route_name := "14", direction := "outbound", operator := "Arriva",
    year := 2025, month := 9, day_of_week := some 2, hour := some 8,
    score := 80, observation_count := 12 }

/-- A state already carries the upsert of r: some row has r's key and
every row with r's key is unchanged by the replacement. -/
def Stabilized (s : List SriRow) (r : SriRow) : Prop :=
  (∃ x ∈ s, sriKey x = sriKey r) ∧
    ∀ x ∈ s, sriKey x = sriKey r → replaceCoarse x r = x

/-- An hourly SRI row with 3 observations, and the same row after its
pattern sources grew to 5 observations; C8 witness data. -/
def c8Row : SriRow :=
  { route_name := "14", direction := "outbound", operator := "Arriva",
    year := 2025, month := 9, day_of_week := some 2, hour := some 8,
    headway_consistency_score := 70, schedule_adherence_score := 50,
    journey_time_consistency_score := 60, service_delivery_score := 80,
    headway_weight := 2/5, schedule_weight := 3/10,
    journey_time_weight := 1/5, service_delivery_weight := 1/10,
    sri_score := 63, sri_grade := "D", observation_count := 3,
    data_completeness := 75 }

def c8RowGrown : SriRow :=
  { c8Row with sri_score := 65, observation_count := 5 }

/-! # Theorems -/

/-! ## Rounding helpers -/

theorem roundHalfAway_nonneg {q : ℚ} (h : 0 ≤ q) : 0 ≤ roundHalfAway q := by
  unfold roundHalfAway
  rw [if_pos h]
  have : (0 : ℚ) ≤ q + 1/2 := by linarith
  exact_mod_cast Int.le_floor.mpr (by exact_mod_cast this)

theorem roundHalfAway_le {q : ℚ} {n : ℤ} (hq : 0 ≤ q) (hc : q ≤ (n : ℚ)) :
    (roundHalfAway q : ℚ) ≤ (n : ℚ) := by
  unfold roundHalfAway
  rw [if_pos hq]
  have h1 : q + 1/2 < (n : ℚ) + 1 := by linarith
  have h2 : ⌊q + 1/2⌋ < n + 1 := Int.floor_lt.mpr (by exact_mod_cast h1)
  exact_mod_cast Int.lt_add_one_iff.mp h2

theorem round2_nonneg {q : ℚ} (h : 0 ≤ q) : 0 ≤ round2 q := by
  unfold round2
  have := roundHalfAway_nonneg (q := q * 100) (by positivity)
  positivity

theorem round2_le_100 {q : ℚ} (h0 : 0 ≤ q) (h : q ≤ 100) : round2 q ≤ 100 := by
  unfold round2
  have h1 : (roundHalfAway (q * 100) : ℚ) ≤ ((10000 : ℤ) : ℚ) :=
    roundHalfAway_le (by positivity) (by push_cast; linarith)
  push_cast at h1
  linarith

theorem roundHalfAway_mono {a b : ℚ} (h : a ≤ b) : roundHalfAway a ≤ roundHalfAway b := by
  unfold roundHalfAway
  by_cases ha : 0 ≤ a
  · rw [if_pos ha, if_pos (le_trans ha h)]
    exact Int.floor_le_floor (by linarith)
  · rw [if_neg ha]
    by_cases hb : 0 ≤ b
    · rw [if_pos hb]
      have h1 : ⌊-a + 1/2⌋ ≥ 0 := Int.le_floor.mpr (by push_neg at ha; push_cast; linarith)
      have h2 : (0:ℤ) ≤ ⌊b + 1/2⌋ := Int.le_floor.mpr (by push_cast; linarith)
      omega
    · rw [if_neg hb]
      have : ⌊-b + 1/2⌋ ≤ ⌊-a + 1/2⌋ := Int.floor_le_floor (by linarith)
      omega

theorem round2_mono {a b : ℚ} (h : a ≤ b) : round2 a ≤ round2 b := by
  unfold round2
  have h1 := roundHalfAway_mono (a := a * 100) (b := b * 100) (by linarith)
  have h2 : ((roundHalfAway (a * 100) : ℤ) : ℚ) ≤ ((roundHalfAway (b * 100) : ℤ) : ℚ) := by
    exact_mod_cast h1
  linarith

theorem clamp_nonneg (x : ℚ) : 0 ≤ max 0 (min 100 x) := le_max_left 0 _

theorem clamp_le_100 (x : ℚ) : max 0 (min 100 x) ≤ 100 :=
  max_le (by norm_num) (min_le_left 100 x)

theorem clamp_mono {x y : ℚ} (h : x ≤ y) :
    max 0 (min 100 x) ≤ max 0 (min 100 y) :=
  max_le_max le_rfl (min_le_min le_rfl h)

/-! ## C1 -/

/-- C1: the Bunching Classifier does not implement the claimed rule.
At the failing input (route 14, stop S12, an arrival at hour 8 with a
7-minute headway, an hourly baseline row existing only for hour 5 with
a 20-minute median, and a 10-minute overall median), the claim's rule
uses the overall baseline (threshold max(5, 2) = 5, so 7 is not
bunched), but the code's hourly subquery matches the hour-5 row
because its hour filter is a self-comparison, giving threshold
max(10, 2) = 10 and classifying the arrival as bunched.  The hour-5
row is also returned as the arrival's expected headway. -/
theorem c1_hourly_lookup_ignores_hour :
    is_bunched c1Db "14" "S12" 7 = true ∧
    claimBunched c1Db "14" "S12" 8 7 = false ∧
    expected_headway_minutes c1Db "14" "S12" = 20 ∧
    claimBaseline c1Db "14" "S12" 8 = 10 := by
  refine ⟨?_, ?_, ?_, ?_⟩ <;> with_unfolding_all decide

/-! ## C3 -/

/-- C3 counterexample: merging the same batch twice is not idempotent.
With a stored bucket of 5 observations and a batch of 3, the second
merge leaves a different row (its observation_count is 11, not 8). -/
theorem c3_counterexample :
    mergeHeadwayPattern (mergeHeadwayPattern c3Old c3Batch) c3Batch ≠
      mergeHeadwayPattern c3Old c3Batch ∧
    (mergeHeadwayPattern (mergeHeadwayPattern c3Old c3Batch) c3Batch).observation_count = 11 ∧
    (mergeHeadwayPattern c3Old c3Batch).observation_count = 8 := by
  refine ⟨?_, ?_, ?_⟩ <;> with_unfolding_all decide

/-- C3 (amended): re-merging the same batch leaves every statistic
field of the headway-pattern bucket unchanged (replace semantics), but
observation_count is additive, growing by the batch count again; the
bunching upsert likewise re-blends the rates 0.7/0.3 and adds all
three counters again, so reprocessing a batch double-counts. -/
theorem c3_merge_replaces_stats_but_adds_counts
    (old excluded : HeadwayPattern) (bOld bNew : BunchingRow) :
    (mergeHeadwayPattern (mergeHeadwayPattern old excluded) excluded).median_headway_minutes =
        (mergeHeadwayPattern old excluded).median_headway_minutes ∧
    (mergeHeadwayPattern (mergeHeadwayPattern old excluded) excluded).avg_headway_minutes =
        (mergeHeadwayPattern old excluded).avg_headway_minutes ∧
    (mergeHeadwayPattern (mergeHeadwayPattern old excluded) excluded).std_headway_minutes =
        (mergeHeadwayPattern old excluded).std_headway_minutes ∧
    (mergeHeadwayPattern (mergeHeadwayPattern old excluded) excluded).min_headway_minutes =
        (mergeHeadwayPattern old excluded).min_headway_minutes ∧
    (mergeHeadwayPattern (mergeHeadwayPattern old excluded) excluded).max_headway_minutes =
        (mergeHeadwayPattern old excluded).max_headway_minutes ∧
    (mergeHeadwayPattern (mergeHeadwayPattern old excluded) excluded).coefficient_of_variation =
        (mergeHeadwayPattern old excluded).coefficient_of_variation ∧
    (mergeHeadwayPattern (mergeHeadwayPattern old excluded) excluded).bunching_rate =
        (mergeHeadwayPattern old excluded).bunching_rate ∧
    (mergeHeadwayPattern (mergeHeadwayPattern old excluded) excluded).observation_count =
        (mergeHeadwayPattern old excluded).observation_count + excluded.observation_count ∧
    (mergeBunchingRow (mergeBunchingRow bOld bNew) bNew).bunching_rate_pct =
        (mergeBunchingRow bOld bNew).bunching_rate_pct * (7/10) +
          bNew.bunching_rate_pct * (3/10) ∧
    (mergeBunchingRow (mergeBunchingRow bOld bNew) bNew).observation_count =
        (mergeBunchingRow bOld bNew).observation_count + bNew.observation_count := by
  simp [mergeHeadwayPattern, mergeBunchingRow]

/-! ## C6 -/

/-- C6: every defined component score lies in [0, 100] whatever the
raw statistic and the anchors are, and the interpolation direction is
flipped between the lower-is-better coefficient-of-variation metrics
(antitone in the raw value when the anchors have their poor-above-
excellent orientation) and the higher-is-better delivery rate
(monotone in the raw value). -/
theorem c6_component_score_bounds :
    (∀ cfg cv s, headwayScore cfg cv = some s → 0 ≤ s ∧ s ≤ 100) ∧
    (∀ cfg cv s, journeyScore cfg cv = some s → 0 ≤ s ∧ s ≤ 100) ∧
    (∀ cfg r s, deliveryScore cfg r = some s → 0 ≤ s ∧ s ≤ 100) ∧
    (∀ cfg cv cv' s s', cfg.headway_cv_excellent < cfg.headway_cv_poor →
      cv ≤ cv' → headwayScore cfg cv = some s → headwayScore cfg cv' = some s' →
      s' ≤ s) ∧
    (∀ cfg r r' s s', cfg.delivery_poor < cfg.delivery_excellent →
      r ≤ r' → deliveryScore cfg r = some s → deliveryScore cfg r' = some s' →
      s ≤ s') := by
  have bounds : ∀ x : ℚ, 0 ≤ round2 (max 0 (min 100 x)) ∧
      round2 (max 0 (min 100 x)) ≤ 100 := fun x =>
    ⟨round2_nonneg (clamp_nonneg x),
     round2_le_100 (clamp_nonneg x) (clamp_le_100 x)⟩
  refine ⟨?_, ?_, ?_, ?_, ?_⟩
  · intro cfg cv s h
    unfold headwayScore safeDiv at h
    by_cases hz : cfg.headway_cv_poor - cfg.headway_cv_excellent = 0
    · simp [hz] at h
    · simp only [hz, if_neg, ite_false, Option.map_some] at h
      cases h
      exact bounds _
  · intro cfg cv s h
    unfold journeyScore safeDiv at h
    by_cases hz : cfg.journey_cv_poor - cfg.journey_cv_excellent = 0
    · simp [hz] at h
    · simp only [hz, if_neg, ite_false, Option.map_some] at h
      cases h
      exact bounds _
  · intro cfg r s h
    unfold deliveryScore safeDiv at h
    by_cases hz : cfg.delivery_excellent - cfg.delivery_poor = 0
    · simp [hz] at h
    · simp only [hz, if_neg, ite_false, Option.map_some] at h
      cases h
      exact bounds _
  · intro cfg cv cv' s s' hor hle h h'
    have hz : cfg.headway_cv_poor - cfg.headway_cv_excellent ≠ 0 := by
      intro hq; rw [sub_eq_zero] at hq; exact absurd hq.symm (ne_of_lt hor)
    unfold headwayScore safeDiv at h h'
    simp only [hz, ite_false, Option.map_some] at h h'
    cases h; cases h'
    have hd : 0 < cfg.headway_cv_poor - cfg.headway_cv_excellent := by linarith
    have ht : (cv - cfg.headway_cv_excellent) / (cfg.headway_cv_poor - cfg.headway_cv_excellent) ≤
        (cv' - cfg.headway_cv_excellent) / (cfg.headway_cv_poor - cfg.headway_cv_excellent) :=
      (div_le_div_right hd).mpr (sub_le_sub_right hle _)
    exact round2_mono (clamp_mono (by nlinarith))
  · intro cfg r r' s s' hor hle h h'
    have hz : cfg.delivery_excellent - cfg.delivery_poor ≠ 0 := by
      intro hq; rw [sub_eq_zero] at hq; exact absurd hq (ne_of_gt hor)
    unfold deliveryScore safeDiv at h h'
    simp only [hz, ite_false, Option.map_some] at h h'
    cases h; cases h'
    have hd : 0 < cfg.delivery_excellent - cfg.delivery_poor := by linarith
    have ht : (r - cfg.delivery_poor) / (cfg.delivery_excellent - cfg.delivery_poor) ≤
        (r' - cfg.delivery_poor) / (cfg.delivery_excellent - cfg.delivery_poor) :=
      (div_le_div_right hd).mpr (sub_le_sub_right hle _)
    exact round2_mono (clamp_mono (by nlinarith))

/-- C6 witness: the bounds and the antitone direction at the default
anchors, with coefficients of variation 0.4 and 0.5. -/
theorem c6_component_score_bounds_witness :
    (0 ≤ (2857/50 : ℚ) ∧ (2857/50 : ℚ) ≤ 100) ∧ (2143/50 : ℚ) ≤ 2857/50 := by
  have h1 : headwayScore defaultConfig (2/5) = some (2857/50) := by
    simp only [headwayScore, defaultConfig, safeDiv, round2, roundHalfAway]
    norm_num [min_def, max_def, Int.floor_eq_iff]
  have h2 : headwayScore defaultConfig (1/2) = some (2143/50) := by
    simp only [headwayScore, defaultConfig, safeDiv, round2, roundHalfAway]
    norm_num [min_def, max_def, Int.floor_eq_iff]
  exact ⟨c6_component_score_bounds.1 defaultConfig (2/5) (2857/50) h1,
    c6_component_score_bounds.2.2.2.1 defaultConfig (2/5) (1/2) (2857/50) (2143/50)
      (by norm_num [defaultConfig]) (by norm_num) h1 h2⟩

/-! ## C10 -/

/-- C10: the interpolation divides by the difference of the configured
poor and excellent anchors with no guard: whenever the two anchors of
a metric differ the score is defined (no division by zero is reached),
and for a configuration with equal anchors the division-by-zero branch
is reached and no score value is produced. -/
theorem c10_zero_divisor_guard :
    (∀ cfg cv, cfg.headway_cv_poor ≠ cfg.headway_cv_excellent →
      (headwayScore cfg cv).isSome = true) ∧
    (∀ cfg cv, cfg.journey_cv_poor ≠ cfg.journey_cv_excellent →
      (journeyScore cfg cv).isSome = true) ∧
    (∀ cfg r, cfg.delivery_excellent ≠ cfg.delivery_poor →
      (deliveryScore cfg r).isSome = true) ∧
    (∀ cfg cv, cfg.headway_cv_poor = cfg.headway_cv_excellent →
      headwayScore cfg cv = none) ∧
    (∀ cfg cv, cfg.journey_cv_poor = cfg.journey_cv_excellent →
      journeyScore cfg cv = none) ∧
    (∀ cfg r, cfg.delivery_excellent = cfg.delivery_poor →
      deliveryScore cfg r = none) := by
  refine ⟨?_, ?_, ?_, ?_, ?_, ?_⟩ <;> intro cfg x h <;>
    simp [headwayScore, journeyScore, deliveryScore, safeDiv, sub_eq_zero, h]

/-- C10 witness: the default anchors differ for all three metrics, so
all three scores are defined; the equal-anchor configuration reaches
the division-by-zero branch of all three. -/
theorem c10_zero_divisor_guard_witness :
    ((headwayScore defaultConfig (2/5)).isSome = true ∧
      (journeyScore defaultConfig (2/5)).isSome = true ∧
      (deliveryScore defaultConfig 80).isSome = true) ∧
    (headwayScore equalAnchorConfig (2/5) = none ∧
      journeyScore equalAnchorConfig (2/5) = none ∧
      deliveryScore equalAnchorConfig 80 = none) :=
  ⟨⟨c10_zero_divisor_guard.1 defaultConfig (2/5) (by norm_num [defaultConfig]),
    c10_zero_divisor_guard.2.1 defaultConfig (2/5) (by norm_num [defaultConfig]),
    c10_zero_divisor_guard.2.2.1 defaultConfig 80 (by norm_num [defaultConfig])⟩,
   ⟨c10_zero_divisor_guard.2.2.2.1 equalAnchorConfig (2/5) (by norm_num [equalAnchorConfig]),
    c10_zero_divisor_guard.2.2.2.2.1 equalAnchorConfig (2/5) (by norm_num [equalAnchorConfig]),
    c10_zero_divisor_guard.2.2.2.2.2 equalAnchorConfig 80 (by norm_num [equalAnchorConfig])⟩⟩

/-! ## C7 -/

/-- C7 counterexample: the stored composite is not the exact weighted
sum.  With the default 40/30/20/10 weights and component scores 99.99,
99.99, 50, 50, the weighted sum is 84.993 but the row stores the
DECIMAL(5,2) value 84.99. -/
theorem c7_counterexample :
    (composeSri defaultConfig (some (9999/100)) (some (9999/100))
        (some 50) (some 50)).sri_score = 8499/100 ∧
    (9999/100 : ℚ) * (2/5) + (9999/100) * (3/10) + 50 * (1/5) + 50 * (1/10) =
      84993/1000 ∧
    (composeSri defaultConfig (some (9999/100)) (some (9999/100))
        (some 50) (some 50)).sri_score ≠
      (9999/100 : ℚ) * (2/5) + (9999/100) * (3/10) + 50 * (1/5) + 50 * (1/10) := by
  refine ⟨?_, by norm_num, ?_⟩ <;>
    · simp only [composeSri, defaultConfig, round2, roundHalfAway, Option.getD]
      norm_num [Int.floor_eq_iff]

/-- C7 (amended): the stored composite equals the weighted sum
Σ score_i * weight_i of the four component scores, with any missing
component replaced by the neutral midpoint 50, rounded to two decimals
by the DECIMAL(5,2) cast; the grade is the A/B/C/D/F bucketing of the
unrounded weighted sum; and the composer is deterministic: identical
component scores and weights yield the identical row. -/
theorem c7_composite_formula (cfg : SriConfig) (hc sa jt sd : Option ℚ) :
    (composeSri cfg hc sa jt sd).sri_score =
      round2 (hc.getD 50 * cfg.headway_weight + sa.getD 50 * cfg.schedule_weight +
        jt.getD 50 * cfg.journey_weight + sd.getD 50 * cfg.service_weight) ∧
    (composeSri cfg hc sa jt sd).sri_grade =
      gradeOf (hc.getD 50 * cfg.headway_weight + sa.getD 50 * cfg.schedule_weight +
        jt.getD 50 * cfg.journey_weight + sd.getD 50 * cfg.service_weight) ∧
    (∀ hc₂ sa₂ jt₂ sd₂, hc₂ = hc → sa₂ = sa → jt₂ = jt → sd₂ = sd →
      composeSri cfg hc₂ sa₂ jt₂ sd₂ = composeSri cfg hc sa jt sd) := by
  refine ⟨rfl, ?_, ?_⟩
  · simp [composeSri, gradeOf]
  · intro hc₂ sa₂ jt₂ sd₂ h1 h2 h3 h4
    rw [h1, h2, h3, h4]

/-- C7 witness: the composer applied twice to the same inputs returns
the same row. -/
theorem c7_composite_formula_witness :
    composeSri defaultConfig (some 80) none (some 70) none =
      composeSri defaultConfig (some 80) none (some 70) none :=
  (c7_composite_formula defaultConfig (some 80) none (some 70) none).2.2
    (some 80) none (some 70) none rfl rfl rfl rfl

/-! ## C5 -/

theorem pickNearest_eq_none {db : StopsDb} {lat lon : ℚ} {l : List TxcStop} :
    pickNearest db lat lon l = none ↔ l = [] := by
  cases l with
  | nil => simp [pickNearest]
  | cons a t =>
    simp only [pickNearest]
    cases h : pickNearest db lat lon t with
    | none => simp
    | some b => by_cases hd : db.st_distance a.geog (lon, lat) ≤ db.st_distance b.geog (lon, lat) <;>
        simp [hd]

theorem pickNearest_mem {db : StopsDb} {lat lon : ℚ} :
    ∀ {l : List TxcStop} {s : TxcStop},
      pickNearest db lat lon l = some s → s ∈ l := by
  intro l
  induction l with
  | nil => intro s h; simp [pickNearest] at h
  | cons a t ih =>
    intro s h
    simp only [pickNearest] at h
    cases h' : pickNearest db lat lon t with
    | none => rw [h'] at h; dsimp only at h; cases h; simp
    | some b =>
      rw [h'] at h
      dsimp only at h
      by_cases hd : db.st_distance a.geog (lon, lat) ≤ db.st_distance b.geog (lon, lat)
      · rw [if_pos hd] at h; cases h; simp
      · rw [if_neg hd] at h; cases h
        exact List.mem_cons_of_mem a (ih h')

theorem pickNearest_min {db : StopsDb} {lat lon : ℚ} :
    ∀ {l : List TxcStop} {s : TxcStop},
      pickNearest db lat lon l = some s →
      ∀ x ∈ l, db.st_distance s.geog (lon, lat) ≤ db.st_distance x.geog (lon, lat) := by
  intro l
  induction l with
  | nil => intro s h; simp [pickNearest] at h
  | cons a t ih =>
    intro s h
    simp only [pickNearest] at h
    cases h' : pickNearest db lat lon t with
    | none =>
      rw [h'] at h
      dsimp only at h
      cases h
      have ht : t = [] := pickNearest_eq_none.mp h'
      subst ht
      intro x hx
      rcases List.mem_singleton.mp hx with rfl
      exact le_refl _
    | some b =>
      rw [h'] at h
      dsimp only at h
      by_cases hd : db.st_distance a.geog (lon, lat) ≤ db.st_distance b.geog (lon, lat)
      · rw [if_pos hd] at h; cases h
        intro x hx
        rcases List.mem_cons.mp hx with rfl | hx
        · exact le_refl _
        · exact le_trans hd (ih h' x hx)
      · rw [if_neg hd] at h; cases h
        intro x hx
        rcases List.mem_cons.mp hx with rfl | hx
        · exact le_of_lt (lt_of_not_le hd)
        · exact ih h' x hx

theorem mem_stopCandidates {db : StopsDb} {lat lon radius : ℚ} {route : String}
    {direction : Option String} {s : TxcStop} :
    s ∈ stopCandidates db lat lon route direction radius ↔
      s ∈ db.stops ∧ servedByRoute db s route direction = true ∧
        db.st_distance s.geog (lon, lat) ≤ radius := by
  simp [stopCandidates, List.mem_filter, and_assoc]

/-- C5: whenever the Stop Matcher reports a match, the selected stop is
a stored stop within the 30 meter radius of the event coordinate,
served by the event's route (with the direction filter applied exactly
when a non-empty direction was given), and of minimum distance among
all such candidates; an unknown (falsy) route or an empty candidate
set yields an explicit no-match, so a nearer stop off the event's
route is never selected. -/
theorem c5_match_radius_and_route :
    (∀ db vp, (match_vehicle_to_stop db vp).matched = true →
      ∃ route s, truthyString vp.route_name = some route ∧ s ∈ db.stops ∧
        (match_vehicle_to_stop db vp).naptan_id = some s.naptan_id ∧
        servedByRoute db s route (truthyString vp.direction) = true ∧
        db.st_distance s.geog (vp.longitude, vp.latitude) ≤ 30 ∧
        ∀ x ∈ stopCandidates db vp.latitude vp.longitude route
            (truthyString vp.direction) 30,
          db.st_distance s.geog (vp.longitude, vp.latitude) ≤
            db.st_distance x.geog (vp.longitude, vp.latitude)) ∧
    (∀ db vp, truthyString vp.route_name = none →
      (match_vehicle_to_stop db vp).matched = false) ∧
    (∀ db vp route, truthyString vp.route_name = some route →
      stopCandidates db vp.latitude vp.longitude route
        (truthyString vp.direction) 30 = [] →
      (match_vehicle_to_stop db vp).matched = false) := by
  refine ⟨?_, ?_, ?_⟩
  · intro db vp h
    cases hr : truthyString vp.route_name with
    | none =>
      exfalso
      unfold match_vehicle_to_stop at h
      rw [hr] at h
      simp at h
    | some route =>
      cases hn : find_nearest_stop_for_route_postgis db vp.latitude vp.longitude
          route (truthyString vp.direction) 30 with
      | none =>
        exfalso
        unfold match_vehicle_to_stop at h
        rw [hr] at h
        dsimp only at h
        rw [hn] at h
        simp at h
      | some triple =>
        obtain ⟨naptan, sname, dist⟩ := triple
        unfold find_nearest_stop_for_route_postgis at hn
        cases hp : pickNearest db vp.latitude vp.longitude
            (stopCandidates db vp.latitude vp.longitude route
              (truthyString vp.direction) 30) with
        | none =>
          exfalso
          rw [hp] at hn
          exact Option.noConfusion hn
        | some s =>
          rw [hp] at hn
          simp only [Option.map_some'] at hn
          rw [Option.some_inj] at hn
          have hmem := pickNearest_mem hp
          have hc := mem_stopCandidates.mp hmem
          have hres : (match_vehicle_to_stop db vp).naptan_id = some naptan := by
            unfold match_vehicle_to_stop
            rw [hr]
            dsimp only
            unfold find_nearest_stop_for_route_postgis
            rw [hp]
            simp only [Option.map_some']
            exact congrArg some (congrArg (fun t => t.1) hn)
          have hnap : naptan = s.naptan_id := by
            have := congrArg (fun t => t.1) hn
            simpa using this.symm
          refine ⟨route, s, rfl, hc.1, ?_, hc.2.1, hc.2.2, pickNearest_min hp⟩
          rw [hres, hnap]
  · intro db vp h
    unfold match_vehicle_to_stop
    rw [h]
  · intro db vp route hr hempty
    unfold match_vehicle_to_stop
    rw [hr]
    dsimp only
    have hnone : find_nearest_stop_for_route_postgis db vp.latitude vp.longitude
        route (truthyString vp.direction) 30 = none := by
      unfold find_nearest_stop_for_route_postgis
      rw [hempty]
      rfl
    rw [hnone]

/-- C5 witness (scenario 3): with an off-route stop 5 meters away and
a route-14 stop 12 meters away, the matcher reports a match, and the
theorem returns the route-scoped nearest stop; the matched stop is
QS5, not the nearer off-route XX1. -/
theorem c5_match_radius_and_route_witness :
    (∃ route s, truthyString c5Vp.route_name = some route ∧ s ∈ c5Db.stops ∧
      (match_vehicle_to_stop c5Db c5Vp).naptan_id = some s.naptan_id ∧
      servedByRoute c5Db s route (truthyString c5Vp.direction) = true ∧
      c5Db.st_distance s.geog (c5Vp.longitude, c5Vp.latitude) ≤ 30 ∧
      ∀ x ∈ stopCandidates c5Db c5Vp.latitude c5Vp.longitude route
          (truthyString c5Vp.direction) 30,
        c5Db.st_distance s.geog (c5Vp.longitude, c5Vp.latitude) ≤
          c5Db.st_distance x.geog (c5Vp.longitude, c5Vp.latitude)) ∧
    (match_vehicle_to_stop c5Db c5Vp).naptan_id = some "QS5" :=
  ⟨c5_match_radius_and_route.1 c5Db c5Vp (by with_unfolding_all decide),
   by with_unfolding_all decide⟩

/-! ## C9 -/

theorem mem_fullJoin {α β : Type} {p : α → β → Bool} {A : List α} {B : List β}
    {x : Option α × Option β} (hx : x ∈ fullJoin p A B) :
    (∃ a ∈ A, x.1 = some a) ∨ (x.1 = none ∧ ∃ b ∈ B, x.2 = some b) := by
  unfold fullJoin at hx
  rcases List.mem_append.mp hx with hl | hr
  · rcases List.mem_flatMap.mp hl with ⟨a, ha, hmem⟩
    dsimp only at hmem
    by_cases he : (B.filter (p a)).isEmpty
    · rw [if_pos he] at hmem
      rcases List.mem_singleton.mp hmem with rfl
      exact Or.inl ⟨a, ha, rfl⟩
    · rw [if_neg he] at hmem
      rcases List.mem_map.mp hmem with ⟨b, _, rfl⟩
      exact Or.inl ⟨a, ha, rfl⟩
  · rcases List.mem_map.mp hr with ⟨b, hb, rfl⟩
    exact Or.inr ⟨rfl, b, List.mem_filter.mp hb |>.1, rfl⟩

theorem cte_has_some_component {hcT saT jtT sdT : List ComponentScoreRow}
    {j : JoinedComponents} (hj : j ∈ componentScoresCte hcT saT jtT sdT) :
    j.hc.isSome = true ∨ j.sa.isSome = true ∨ j.jt.isSome = true ∨
      j.sd.isSome = true := by
  unfold componentScoresCte at hj
  rcases List.mem_map.mp hj with ⟨y, hy, rfl⟩
  rcases mem_fullJoin hy with ⟨x2, hx2, h1⟩ | ⟨_, sd, _, h2⟩
  · rcases mem_fullJoin hx2 with ⟨x1, hx1, h11⟩ | ⟨_, jt, _, h12⟩
    · rcases mem_fullJoin hx1 with ⟨hc, _, h111⟩ | ⟨_, sa, _, h112⟩
      · refine Or.inl ?_
        simp [h1, h11, h111]
      · refine Or.inr (Or.inl ?_)
        simp [h1, h11, h112]
    · refine Or.inr (Or.inr (Or.inl ?_))
      simp [h1, h12]
  · refine Or.inr (Or.inr (Or.inr ?_))
    simp [h2]

/-- C9: every route-level SRI row the composer emits has
data_completeness equal to 25 times the number of present component
scores of its joined row, hence a value in {25, 50, 75, 100}; it is at
least 25 because every joined row carries at least one component. -/
theorem c9_data_completeness (cfg : SriConfig)
    (hcT saT jtT sdT : List ComponentScoreRow) (r : SriOutput)
    (hr : r ∈ sriEmittedRows cfg hcT saT jtT sdT) :
    ∃ j ∈ componentScoresCte hcT saT jtT sdT,
      1 ≤ presentComponents j ∧ presentComponents j ≤ 4 ∧
      r.data_completeness = 25 * (presentComponents j : ℚ) ∧
      (r.data_completeness = 25 ∨ r.data_completeness = 50 ∨
        r.data_completeness = 75 ∨ r.data_completeness = 100) := by
  unfold sriEmittedRows at hr
  rcases List.mem_map.mp hr with ⟨j, hj, rfl⟩
  have hjmem : j ∈ componentScoresCte hcT saT jtT sdT :=
    (List.mem_filter.mp hj).1
  have hsome := cte_has_some_component hjmem
  refine ⟨j, hjmem, ?_⟩
  cases hhc : j.hc <;> cases hsa : j.sa <;> cases hjt : j.jt <;> cases hsd : j.sd <;>
    rw [hhc, hsa, hjt, hsd] at hsome <;> simp at hsome <;>
    simp [presentComponents, composeSri, hhc, hsa, hjt, hsd] <;> norm_num

/-- C9 witness: with only one headway row (12 observations, enough to
pass the 10-observation gate) the emitted row has completeness 25. -/
theorem c9_data_completeness_witness :
    ∃ j ∈ componentScoresCte [c9HcRow] [] [] [],
      1 ≤ presentComponents j ∧ presentComponents j ≤ 4 ∧
      (composeSri defaultConfig (some 80) none none none).data_completeness =
        25 * (presentComponents j : ℚ) ∧
      ((composeSri defaultConfig (some 80) none none none).data_completeness = 25 ∨
        (composeSri defaultConfig (some 80) none none none).data_completeness = 50 ∨
        (composeSri defaultConfig (some 80) none none none).data_completeness = 75 ∨
        (composeSri defaultConfig (some 80) none none none).data_completeness = 100) :=
  c9_data_completeness defaultConfig [c9HcRow] [] [] []
    (composeSri defaultConfig (some 80) none none none)
    (by with_unfolding_all decide)

/-! ## C4 -/

theorem flatten_eq_nil {α : Type} {L : List (List α)}
    (hne : ∀ r ∈ L, r ≠ []) (h : L.flatten = []) : L = [] := by
  cases L with
  | nil => rfl
  | cons r rs =>
    exfalso
    rw [List.flatten_cons, List.append_eq_nil] at h
    exact hne r (by simp) h.1

theorem flatten_eq_one {α : Type} {L : List (List α)}
    (hne : ∀ r ∈ L, r ≠ []) {x : α} (h : L.flatten = [x]) : L = [[x]] := by
  cases L with
  | nil => simp at h
  | cons r rs =>
    rw [List.flatten_cons] at h
    cases r with
    | nil => exact absurd rfl (hne [] (by simp))
    | cons a t =>
      simp only [List.cons_append, List.cons.injEq] at h
      obtain ⟨rfl, h2⟩ := h
      rw [List.append_eq_nil] at h2
      have : rs = [] := flatten_eq_nil (fun r hr => hne r (by simp [hr])) h2.2
      rw [h2.1, this]

theorem flatten_eq_two {α : Type} {L : List (List α)}
    (hne : ∀ r ∈ L, r ≠ []) {x y : α} (h : L.flatten = [x, y]) :
    L = [[x], [y]] ∨ L = [[x, y]] := by
  cases L with
  | nil => simp at h
  | cons r rs =>
    rw [List.flatten_cons] at h
    cases r with
    | nil => exact absurd rfl (hne [] (by simp))
    | cons a t =>
      simp only [List.cons_append, List.cons.injEq] at h
      obtain ⟨rfl, h2⟩ := h
      cases t with
      | nil =>
        simp only [List.nil_append] at h2
        have : rs = [[y]] := flatten_eq_one (fun r hr => hne r (by simp [hr])) h2
        rw [this]
        exact Or.inl rfl
      | cons b t' =>
        simp only [List.cons_append, List.cons.injEq] at h2
        obtain ⟨rfl, h3⟩ := h2
        rw [List.append_eq_nil] at h3
        have : rs = [] := flatten_eq_nil (fun r hr => hne r (by simp [hr])) h3.2
        rw [h3.1, this]
        exact Or.inr rfl

theorem flatten_eq_three {α : Type} {L : List (List α)}
    (hne : ∀ r ∈ L, r ≠ []) {x y z : α} (h : L.flatten = [x, y, z]) :
    L = [[x], [y], [z]] ∨ L = [[x], [y, z]] ∨ L = [[x, y], [z]] ∨
      L = [[x, y, z]] := by
  cases L with
  | nil => simp at h
  | cons r rs =>
    rw [List.flatten_cons] at h
    cases r with
    | nil => exact absurd rfl (hne [] (by simp))
    | cons a t =>
      simp only [List.cons_append, List.cons.injEq] at h
      obtain ⟨rfl, h2⟩ := h
      cases t with
      | nil =>
        simp only [List.nil_append] at h2
        rcases flatten_eq_two (fun r hr => hne r (by simp [hr])) h2 with h3 | h3 <;>
          rw [h3]
        · exact Or.inl rfl
        · exact Or.inr (Or.inl rfl)
      | cons b t' =>
        simp only [List.cons_append, List.cons.injEq] at h2
        obtain ⟨rfl, h3⟩ := h2
        cases t' with
        | nil =>
          simp only [List.nil_append] at h3
          have : rs = [[z]] := flatten_eq_one (fun r hr => hne r (by simp [hr])) h3
          rw [this]
          exact Or.inr (Or.inr (Or.inl rfl))
        | cons c t'' =>
          simp only [List.cons_append, List.cons.injEq] at h3
          obtain ⟨rfl, h4⟩ := h3
          rw [List.append_eq_nil] at h4
          have : rs = [] := flatten_eq_nil (fun r hr => hne r (by simp [hr])) h4.2
          rw [h4.1, this]
          exact Or.inr (Or.inr (Or.inr rfl))

/-- Two positions on the same meridian whose latitudes differ by at
most 0.00003 degrees are same-located under the spec's great-circle
relation: the haversine distance degenerates to
6371000 * Δlat * π / 180 ≤ 6371000 * 0.00003 * π / 180 < 5 meters. -/
theorem specSameLocation_of_meridian_step {p q : VehiclePos}
    (hlon : q.longitude = p.longitude)
    (h0 : 0 ≤ q.latitude - p.latitude)
    (h1 : q.latitude - p.latitude ≤ 3/100000) : specSameLocation p q := by
  unfold specSameLocation
  have hlon0 : ((q.longitude - p.longitude : ℚ) : ℝ) = 0 := by
    rw [hlon]; push_cast; ring
  rw [hlon0]
  have hd0 : (0 : ℝ) ≤ ((q.latitude - p.latitude : ℚ) : ℝ) := by exact_mod_cast h0
  have hd1 : ((q.latitude - p.latitude : ℚ) : ℝ) ≤ 3/100000 := by
    have := (Rat.cast_le (K := ℝ)).mpr h1
    push_cast at this
    convert this using 2 <;> norm_num
  set d : ℝ := ((q.latitude - p.latitude : ℚ) : ℝ) with hdef
  have hpi : (0 : ℝ) < Real.pi := Real.pi_pos
  have hpilt : Real.pi < 3.15 := Real.pi_lt_315
  set x : ℝ := d * Real.pi / 180 / 2 with hx
  have hx0 : 0 ≤ x := by
    rw [hx]; positivity
  have hxsmall : x ≤ Real.pi / 2 := by
    rw [hx]
    rw [div_le_div_iff (by norm_num) (by norm_num)]
    nlinarith
  have harg : (0 : ℝ) * Real.pi / 180 / 2 = 0 := by ring
  rw [harg, Real.sin_zero]
  have hsimp : Real.sin x ^ 2 + Real.cos (((p.latitude : ℚ) : ℝ) * Real.pi / 180) *
      Real.cos (((q.latitude : ℚ) : ℝ) * Real.pi / 180) * 0 ^ 2 =
      Real.sin x ^ 2 := by ring
  rw [hsimp]
  rw [Real.sqrt_sq_eq_abs]
  have hsin0 : 0 ≤ Real.sin x :=
    Real.sin_nonneg_of_nonneg_of_le_pi hx0 (by nlinarith)
  rw [abs_of_nonneg hsin0]
  rw [Real.arcsin_sin (by linarith) hxsmall]
  rw [hx]
  nlinarith

set_option maxRecDepth 8000 in
/-- C4 counterexample: on the drifting three-sample timeline, both
adjacent pairs are same-located under the spec's great-circle 5 meter
relation, so the claim's only admissible run decomposition is the
single three-sample run, whose event carries dwell_seconds = 30; but
the detector compares against the run's first sample with a 0.00005
degree coordinate box, splits the drift after two samples and emits a
single event with dwell_seconds = 20. -/
theorem c4_counterexample :
    ¬ SpecDetectorClaim [c4p0, c4p1, c4p2]
        (find_stop_events [c4p0, c4p1, c4p2]) := by
  have hout : find_stop_events [c4p0, c4p1, c4p2] = [mkDwellEvent c4p0 2] := by
    with_unfolding_all decide
  have h01 : specSameLocation c4p0 c4p1 := by
    apply specSameLocation_of_meridian_step <;> with_unfolding_all decide
  have h12 : specSameLocation c4p1 c4p2 := by
    apply specSameLocation_of_meridian_step <;> with_unfolding_all decide
  rintro ⟨runs, ⟨hjoin, hne, hchain, hbound⟩, hev⟩
  rcases flatten_eq_three hne hjoin with rfl | rfl | rfl | rfl
  · have := List.chain'_cons.mp hbound
    exact this.1 c4p0 rfl c4p1 rfl h01
  · have := List.chain'_cons.mp hbound
    exact this.1 c4p0 rfl c4p1 rfl h01
  · have := List.chain'_cons.mp hbound
    exact this.1 c4p1 rfl c4p2 rfl h12
  · rw [hout] at hev
    have : (mkDwellEvent c4p0 2).poll_count =
        (mkDwellEvent c4p0 3).poll_count := by
      have h2 : ([[c4p0, c4p1, c4p2]].filter (fun r => 2 ≤ r.length)).map
          specEventOf = [mkDwellEvent c4p0 3] := by
        with_unfolding_all decide
      rw [h2] at hev
      rw [List.cons.injEq] at hev
      rw [hev.1]
    simp [mkDwellEvent] at this

/-- The invariant of the detector loop: starting from anchor a with
the samples of t already collected inside a's box, the remaining list
l is consumed as an anchor-run decomposition whose first run is a
followed by t and the samples of l inside a's box, and the emitted
events are exactly the runs of length at least 2 mapped to their
anchor events. -/
theorem detectLoop_decomp :
    ∀ (l : List VehiclePos) (a : VehiclePos) (t : List VehiclePos),
      (∀ q ∈ t, sameBox a q = true) →
      ∃ t₁ rs,
        IsAnchorRunDecomp (a :: (t ++ l)) ((a :: t₁) :: rs) ∧
        detectLoop a (t.length + 1) l =
          (((a :: t₁) :: rs).filter (fun r => 2 ≤ r.length)).map specEventOf := by
  intro l
  induction l with
  | nil =>
    intro a t ht
    refine ⟨t, [], ⟨by simp, ?_, ?_⟩, ?_⟩
    · intro r hr
      rcases List.mem_singleton.mp hr with rfl
      exact ⟨a, t, rfl, ht⟩
    · simp
    · rcases t with _ | ⟨b, t'⟩
      · simp [detectLoop]
      · have hle : 2 ≤ (b :: t').length + 1 := by
          simp [List.length_cons]
        have hlen : 2 ≤ (a :: b :: t').length := by
          simp [List.length_cons]
        simp only [detectLoop, if_pos hle]
        simp [List.filter_cons, hlen, specEventOf]
  | cons q rest ih =>
    intro a t ht
    by_cases hbox : sameBox a q = true
    · obtain ⟨t₁, rs, hdec, hev⟩ := ih a (t ++ [q])
        (by intro x hx; rcases List.mem_append.mp hx with hx | hx
            · exact ht x hx
            · rcases List.mem_singleton.mp hx with rfl; exact hbox)
      refine ⟨t₁, rs, ?_, ?_⟩
      · have harr : t ++ [q] ++ rest = t ++ (q :: rest) := by simp
        rw [harr] at hdec
        exact hdec
      · have hlen : (t ++ [q]).length + 1 = t.length + 1 + 1 := by simp
        rw [hlen] at hev
        simpa [detectLoop, hbox] using hev
    · rw [Bool.not_eq_true] at hbox
      obtain ⟨t₁', rs', hdec', hev'⟩ := ih q [] (by intro x hx; simp at hx)
      simp only [List.nil_append, List.length_nil] at hdec' hev'
      obtain ⟨hflat', hruns', hchain'⟩ := hdec'
      by_cases h2 : 2 ≤ t.length + 1
      · refine ⟨t, (q :: t₁') :: rs', ⟨?_, ?_, ?_⟩, ?_⟩
        · simp only [List.flatten_cons] at hflat' ⊢
          rw [hflat']
          simp
        · intro r hr
          rcases List.mem_cons.mp hr with rfl | hr
          · exact ⟨a, t, rfl, ht⟩
          · exact hruns' r hr
        · rw [List.chain'_cons]
          refine ⟨?_, hchain'⟩
          intro x hx y hy
          simp only [List.head?_cons, Option.mem_def, Option.some_inj] at hx hy
          rw [← hx, ← hy]
          exact hbox
        · have hstep : detectLoop a (t.length + 1) (q :: rest) =
              mkDwellEvent a (t.length + 1) :: detectLoop q 1 rest := by
            simp [detectLoop, hbox, h2]
          rw [hstep, hev']
          have hkeep : decide (2 ≤ (a :: t).length) = true := by
            simp [List.length_cons]
            omega
          simp only [List.filter_cons, hkeep, if_true, List.map_cons]
          rfl
      · have ht0 : t = [] := by
          rcases t with _ | ⟨b, t'⟩
          · rfl
          · exfalso
            simp [List.length_cons] at h2
        subst ht0
        refine ⟨[], (q :: t₁') :: rs', ⟨?_, ?_, ?_⟩, ?_⟩
        · simp only [List.flatten_cons] at hflat' ⊢
          rw [hflat']
          simp
        · intro r hr
          rcases List.mem_cons.mp hr with rfl | hr
          · exact ⟨a, [], rfl, by intro x hx; simp at hx⟩
          · exact hruns' r hr
        · rw [List.chain'_cons]
          refine ⟨?_, hchain'⟩
          intro x hx y hy
          simp only [List.head?_cons, Option.mem_def, Option.some_inj] at hx hy
          rw [← hx, ← hy]
          exact hbox
        · have hstep : detectLoop a (List.length ([] : List VehiclePos) + 1)
              (q :: rest) = detectLoop q 1 rest := by
            simp [detectLoop, hbox]
          rw [hstep, hev']
          have hdrop : decide (2 ≤ (a :: ([] : List VehiclePos)).length) = false := by
            simp
          simp only [List.filter_cons, hdrop]
          simp

/-- The detector scan of one timeline is exactly the anchor-run view:
there is an anchor-run decomposition of the timeline whose runs of at
least two samples are emitted, each as the event anchored at the run's
first sample with dwell_seconds = sample_count * 10. -/
theorem detectRuns_decomp (l : List VehiclePos) :
    ∃ runs, IsAnchorRunDecomp l runs ∧
      detectRuns l = (runs.filter (fun r => 2 ≤ r.length)).map specEventOf := by
  cases l with
  | nil =>
    refine ⟨[], ⟨rfl, ?_, ?_⟩, rfl⟩
    · intro r hr; simp at hr
    · simp
  | cons p rest =>
    obtain ⟨t₁, rs, hdec, hev⟩ := detectLoop_decomp rest p [] (by intro x hx; simp at hx)
    simp only [List.nil_append, List.length_nil] at hdec hev
    exact ⟨(p :: t₁) :: rs, hdec, hev⟩

/-- C4 (amended): the detector's same-location test is an axis-aligned
0.00005 degree coordinate box around the run's first sample, not a
pairwise great-circle tolerance; with that reading the contract holds:
each vehicle's sorted timeline decomposes into anchor runs whose runs
of at least 2 samples are emitted one-to-one as events with
dwell_seconds = sample_count * 10 anchored at the run's first sample,
and every emitted event of find_stop_events has poll_count at least 2
and dwell_time_seconds = poll_count * 10, so a single isolated sample
never yields an event. -/
theorem c4_detector_amended :
    (∀ l : List VehiclePos, ∃ runs, IsAnchorRunDecomp l runs ∧
      detectRuns l = (runs.filter (fun r => 2 ≤ r.length)).map specEventOf) ∧
    (∀ ps e, e ∈ find_stop_events ps →
      2 ≤ e.poll_count ∧ e.dwell_time_seconds = e.poll_count * 10) := by
  have hper : ∀ l e, e ∈ detectRuns l →
      2 ≤ e.poll_count ∧ e.dwell_time_seconds = e.poll_count * 10 := by
    intro l e he
    obtain ⟨runs, hdec, hev⟩ := detectRuns_decomp l
    rw [hev] at he
    rcases List.mem_map.mp he with ⟨r, hr, rfl⟩
    have hrf := List.mem_filter.mp hr
    have hlen : 2 ≤ r.length := by
      have := hrf.2
      simpa using this
    obtain ⟨a, t, rfl, _⟩ := hdec.2.1 r hrf.1
    refine ⟨?_, ?_⟩
    · simp only [specEventOf, mkDwellEvent]
      simp only [List.length_cons] at hlen
      omega
    · simp [specEventOf, mkDwellEvent, Nat.mul_comm]
  refine ⟨detectRuns_decomp, ?_⟩
  intro ps e he
  unfold find_stop_events at he
  rcases List.mem_flatMap.mp he with ⟨vid, _, hmem⟩
  exact hper _ e hmem

set_option maxRecDepth 8000 in
/-- C4 witness: the two-sample dwell of the counterexample timeline is
emitted with poll_count 2 and dwell_time_seconds 20 = 2 * 10. -/
theorem c4_detector_amended_witness :
    2 ≤ (mkDwellEvent c4p0 2).poll_count ∧
    (mkDwellEvent c4p0 2).dwell_time_seconds =
      (mkDwellEvent c4p0 2).poll_count * 10 :=
  c4_detector_amended.2 [c4p0, c4p1, c4p2] (mkDwellEvent c4p0 2)
    (by with_unfolding_all decide)

/-! ## C2: upsert stabilization -/

theorem sriKey_replaceCoarse (x r : SriRow) :
    sriKey (replaceCoarse x r) = sriKey x := rfl

theorem replaceCoarse_idem (x r : SriRow) :
    replaceCoarse (replaceCoarse x r) r = replaceCoarse x r := rfl

theorem replaceCoarse_self (r : SriRow) : replaceCoarse r r = r := rfl

theorem upsertRow_of_stabilized {s : List SriRow} {r : SriRow}
    (h : Stabilized s r) : upsertRow replaceCoarse s r = s := by
  obtain ⟨⟨x0, hx0, hk0⟩, hall⟩ := h
  unfold upsertRow
  have hany : s.any (fun x => sriKey x = sriKey r) = true := by
    rw [List.any_eq_true]
    exact ⟨x0, hx0, by simp [hk0]⟩
  rw [if_pos hany]
  have : s.map (fun x => if sriKey x = sriKey r then replaceCoarse x r else x) =
      s.map id := by
    apply List.map_congr_left
    intro x hx
    by_cases hk : sriKey x = sriKey r
    · simp [hk, hall x hx hk]
    · simp [hk]
  rw [this, List.map_id]

theorem stabilized_upsertRow (s : List SriRow) (r : SriRow) :
    Stabilized (upsertRow replaceCoarse s r) r := by
  unfold upsertRow
  by_cases hany : s.any (fun x => sriKey x = sriKey r) = true
  · rw [if_pos hany]
    rcases List.any_eq_true.mp hany with ⟨x0, hx0, hk0⟩
    rw [decide_eq_true_eq] at hk0
    constructor
    · refine ⟨replaceCoarse x0 r, ?_, by rw [sriKey_replaceCoarse, hk0]⟩
      refine List.mem_map.mpr ⟨x0, hx0, ?_⟩
      simp [hk0]
    · intro y hy hky
      rcases List.mem_map.mp hy with ⟨x, hx, rfl⟩
      by_cases hk : sriKey x = sriKey r
      · simp only [hk, if_true]
        exact replaceCoarse_idem x r
      · simp only [hk, if_false] at hky
  · rw [if_neg hany]
    rw [Bool.not_eq_true, List.any_eq_false] at hany
    constructor
    · exact ⟨r, by simp, rfl⟩
    · intro y hy hky
      rcases List.mem_append.mp hy with hy | hy
      · have hnk : ¬ (sriKey y = sriKey r) := by simpa using hany y hy
        exact absurd hky hnk
      · have hyr := List.mem_singleton.mp hy
        subst hyr
        exact replaceCoarse_self _

theorem stabilized_of_other_key {s : List SriRow} {r r' : SriRow}
    (hne : sriKey r ≠ sriKey r') (h : Stabilized s r) :
    Stabilized (upsertRow replaceCoarse s r') r := by
  obtain ⟨⟨x0, hx0, hk0⟩, hall⟩ := h
  unfold upsertRow
  by_cases hany : s.any (fun x => sriKey x = sriKey r') = true
  · rw [if_pos hany]
    constructor
    · refine ⟨x0, List.mem_map.mpr ⟨x0, hx0, ?_⟩, hk0⟩
      have : ¬ sriKey x0 = sriKey r' := by rw [hk0]; exact hne
      simp [this]
    · intro y hy hky
      rcases List.mem_map.mp hy with ⟨x, hx, rfl⟩
      by_cases hk : sriKey x = sriKey r'
      · simp only [hk, if_true] at hky ⊢
        rw [sriKey_replaceCoarse] at hky
        rw [hk] at hky
        exact absurd hky.symm hne
      · simp only [hk, if_false] at hky ⊢
        exact hall x hx hky
  · rw [if_neg hany]
    constructor
    · exact ⟨x0, List.mem_append.mpr (Or.inl hx0), hk0⟩
    · intro y hy hky
      rcases List.mem_append.mp hy with hy | hy
      · exact hall y hy hky
      · rcases List.mem_singleton.mp hy with rfl
        exact absurd hky.symm hne

theorem stabilized_upsertAll_of_other_keys {s : List SriRow} {r : SriRow}
    {M : List SriRow} (hne : ∀ m ∈ M, sriKey r ≠ sriKey m)
    (h : Stabilized s r) : Stabilized (upsertAll replaceCoarse s M) r := by
  induction M generalizing s with
  | nil => exact h
  | cons m M ih =>
    exact ih (fun m' hm' => hne m' (by simp [hm']))
      (stabilized_of_other_key (hne m (by simp)) h)

theorem stabilized_upsertAll_each {R : List SriRow}
    (hnd : (R.map sriKey).Nodup) :
    ∀ (s : List SriRow), ∀ r ∈ R, Stabilized (upsertAll replaceCoarse s R) r := by
  induction R with
  | nil => intro s r hr; simp at hr
  | cons r0 R ih =>
    intro s r hr
    rw [List.map_cons, List.nodup_cons] at hnd
    rcases List.mem_cons.mp hr with rfl | hr
    · have h0 : Stabilized (upsertRow replaceCoarse s r) r := stabilized_upsertRow s r
      have hne : ∀ m ∈ R, sriKey r ≠ sriKey m := by
        intro m hm heq
        exact hnd.1 (heq ▸ List.mem_map.mpr ⟨m, hm, rfl⟩)
      show Stabilized (upsertAll replaceCoarse (upsertRow replaceCoarse s r) R) r
      exact stabilized_upsertAll_of_other_keys hne h0
    · show Stabilized (upsertAll replaceCoarse (upsertRow replaceCoarse s r0) R) r
      exact ih hnd.2 (upsertRow replaceCoarse s r0) r hr

theorem upsertAll_of_stabilized_all {s : List SriRow} {R : List SriRow}
    (h : ∀ r ∈ R, Stabilized s r) : upsertAll replaceCoarse s R = s := by
  induction R with
  | nil => rfl
  | cons r0 R ih =>
    have h0 : upsertRow replaceCoarse s r0 = s :=
      upsertRow_of_stabilized (h r0 (by simp))
    unfold upsertAll
    rw [List.foldl_cons]
    show upsertAll replaceCoarse (upsertRow replaceCoarse s r0) R = s
    rw [h0]
    exact ih (fun r hr => h r (by simp [hr]))

theorem hour_eq_of_sriKey_eq {x r : SriRow} (h : sriKey x = sriKey r) :
    x.hour = r.hour := congrArg SriKey.hour h

theorem dow_eq_of_sriKey_eq {x r : SriRow} (h : sriKey x = sriKey r) :
    x.day_of_week = r.day_of_week := congrArg SriKey.day_of_week h

theorem filter_map_replace (P : SriRow → Bool) (r : SriRow)
    (hkey : ∀ x, sriKey x = sriKey r → P x = false)
    (hrep : ∀ x y, P (replaceCoarse x y) = P x) :
    ∀ s : List SriRow,
      (s.map (fun x => if sriKey x = sriKey r then replaceCoarse x r else x)).filter P =
        s.filter P := by
  intro s
  induction s with
  | nil => rfl
  | cons a t ih =>
    rw [List.map_cons]
    by_cases hk : sriKey a = sriKey r
    · have hpa : P a = false := hkey a hk
      have hpr : P (replaceCoarse a r) = false := by rw [hrep]; exact hpa
      rw [if_pos hk]
      rw [List.filter_cons, List.filter_cons, hpa, hpr]
      simpa using ih
    · rw [if_neg hk]
      rw [List.filter_cons, List.filter_cons]
      cases hpa : P a
      · simpa [hpa] using ih
      · simpa [hpa] using ih

theorem filter_upsertRow (P : SriRow → Bool) {s : List SriRow} {r : SriRow}
    (hkey : ∀ x, sriKey x = sriKey r → P x = false) (hr : P r = false)
    (hrep : ∀ x y, P (replaceCoarse x y) = P x) :
    (upsertRow replaceCoarse s r).filter P = s.filter P := by
  unfold upsertRow
  by_cases hany : s.any (fun x => sriKey x = sriKey r) = true
  · rw [if_pos hany]
    exact filter_map_replace P r hkey hrep s
  · rw [if_neg hany]
    rw [List.filter_append]
    rw [List.filter_cons, hr, List.filter_nil]
    simp

theorem filter_upsertAll (P : SriRow → Bool)
    (hrep : ∀ x y, P (replaceCoarse x y) = P x) :
    ∀ (M : List SriRow) (s : List SriRow),
      (∀ m ∈ M, (∀ x, sriKey x = sriKey m → P x = false) ∧ P m = false) →
      (upsertAll replaceCoarse s M).filter P = s.filter P := by
  intro M
  induction M with
  | nil => intro s _; rfl
  | cons m M ih =>
    intro s hM
    show (upsertAll replaceCoarse (upsertRow replaceCoarse s m) M).filter P =
      s.filter P
    rw [ih (upsertRow replaceCoarse s m) (fun m' hm' => hM m' (by simp [hm']))]
    exact filter_upsertRow P (hM m (by simp)).1 (hM m (by simp)).2 hrep

theorem mem_dailyRows {s : List SriRow} {r : SriRow} (h : r ∈ dailyRows s) :
    r.hour = none ∧ r.day_of_week.isSome = true := by
  unfold dailyRows at h
  rcases List.mem_map.mp h with ⟨k, hk, rfl⟩
  have hk' : k ∈ (dailySource s).map dailyGroupKey := List.mem_dedup.mp hk
  rcases List.mem_map.mp hk' with ⟨x, hx, rfl⟩
  have hxP := (List.mem_filter.mp hx).2
  rw [Bool.and_eq_true] at hxP
  exact ⟨rfl, hxP.1⟩

theorem mem_monthlyRows {s : List SriRow} {r : SriRow} (h : r ∈ monthlyRows s) :
    r.hour = none ∧ r.day_of_week = none := by
  unfold monthlyRows at h
  rcases List.mem_map.mp h with ⟨k, _, rfl⟩
  exact ⟨rfl, rfl⟩

theorem dailyRows_keys_nodup (s : List SriRow) :
    ((dailyRows s).map sriKey).Nodup := by
  unfold dailyRows
  rw [List.map_map]
  have hinj : Function.Injective (fun k : DailyKey =>
      (⟨k.route_name, k.direction, k.operator, k.year, k.month,
        k.day_of_week, none⟩ : SriKey)) := by
    intro k1 k2 h
    rcases k1; rcases k2
    simpa [SriKey.mk.injEq, DailyKey.mk.injEq] using h
  have : (sriKey ∘ fun k => mkDailyRow k
      ((dailySource s).filter (fun x => dailyGroupKey x = k))) =
      (fun k : DailyKey => (⟨k.route_name, k.direction, k.operator, k.year,
        k.month, k.day_of_week, none⟩ : SriKey)) := rfl
  rw [this]
  exact (List.nodup_dedup _).map hinj

theorem monthlyRows_keys_nodup (s : List SriRow) :
    ((monthlyRows s).map sriKey).Nodup := by
  unfold monthlyRows
  rw [List.map_map]
  have hinj : Function.Injective (fun k : MonthlyKey =>
      (⟨k.route_name, k.direction, k.operator, k.year, k.month,
        none, none⟩ : SriKey)) := by
    intro k1 k2 h
    rcases k1; rcases k2
    simpa [SriKey.mk.injEq, MonthlyKey.mk.injEq] using h
  have : (sriKey ∘ fun k => mkMonthlyRow k
      ((monthlySource s).filter (fun x => monthlyGroupKey x = k))) =
      (fun k : MonthlyKey => (⟨k.route_name, k.direction, k.operator, k.year,
        k.month, none, none⟩ : SriKey)) := rfl
  rw [this]
  exact (List.nodup_dedup _).map hinj

theorem dailyRows_congr {s₁ s₂ : List SriRow}
    (h : dailySource s₁ = dailySource s₂) : dailyRows s₁ = dailyRows s₂ := by
  unfold dailyRows
  rw [h]

theorem monthlyRows_congr {s₁ s₂ : List SriRow}
    (h : monthlySource s₁ = monthlySource s₂) :
    monthlyRows s₁ = monthlyRows s₂ := by
  unfold monthlyRows
  rw [h]

theorem dailySource_upsertAll {M : List SriRow} (hM : ∀ m ∈ M, m.hour = none)
    (s₀ : List SriRow) :
    dailySource (upsertAll replaceCoarse s₀ M) = dailySource s₀ := by
  unfold dailySource
  apply filter_upsertAll (fun z : SriRow => z.day_of_week.isSome && z.hour.isSome)
    (fun x y => rfl) M s₀
  intro m hm
  constructor
  · intro x hx
    have hxh : x.hour = none := by rw [hour_eq_of_sriKey_eq hx]; exact hM m hm
    simp [hxh]
  · simp [hM m hm]

theorem monthlySource_upsertAll {M : List SriRow}
    (hM : ∀ m ∈ M, m.day_of_week = none) (s₀ : List SriRow) :
    monthlySource (upsertAll replaceCoarse s₀ M) = monthlySource s₀ := by
  unfold monthlySource
  apply filter_upsertAll (fun z : SriRow => z.day_of_week.isSome && !z.hour.isSome)
    (fun x y => rfl) M s₀
  intro m hm
  constructor
  · intro x hx
    have hxd : x.day_of_week = none := by
      rw [dow_eq_of_sriKey_eq hx]; exact hM m hm
    simp [hxd]
  · simp [hM m hm]

/-- C2: the Pattern Aggregator's coarsening pass (daily rows averaged
from the hourly rows, then monthly rows averaged from the daily rows,
upserted with full-replace semantics on the statistic fields and
observation_count) is idempotent: running it twice over the same table
state yields exactly the state of running it once. -/
theorem c2_coarsening_idempotent (s : List SriRow) :
    create_monthly_daily_aggregates (create_monthly_daily_aggregates s) =
      create_monthly_daily_aggregates s := by
  unfold create_monthly_daily_aggregates
  set S1 := dailyStep s with hS1
  set S2 := monthlyStep S1 with hS2
  have hS1eq : S1 = upsertAll replaceCoarse s (dailyRows s) := by
    rw [hS1]; rfl
  have hS2eq : S2 = upsertAll replaceCoarse S1 (monthlyRows S1) := by
    rw [hS2]; rfl
  have h1 : dailySource S1 = dailySource s := by
    rw [hS1eq]
    exact dailySource_upsertAll (fun m hm => (mem_dailyRows hm).1) s
  have h2 : dailySource S2 = dailySource s := by
    rw [hS2eq]
    rw [dailySource_upsertAll (fun m hm => (mem_monthlyRows hm).1) S1]
    exact h1
  have h3 : dailyRows S2 = dailyRows s := dailyRows_congr h2
  have h4 : ∀ r ∈ dailyRows s, Stabilized S2 r := by
    intro r hr
    have hstab1 : Stabilized S1 r := by
      rw [hS1eq]
      exact stabilized_upsertAll_each (dailyRows_keys_nodup s) s r hr
    rw [hS2eq]
    refine stabilized_upsertAll_of_other_keys ?_ hstab1
    intro m hm heq
    have hd1 : r.day_of_week.isSome = true := (mem_dailyRows hr).2
    have hd2 : m.day_of_week = none := (mem_monthlyRows hm).2
    rw [dow_eq_of_sriKey_eq heq, hd2] at hd1
    simp at hd1
  have h5 : dailyStep S2 = S2 := by
    unfold dailyStep
    rw [h3]
    exact upsertAll_of_stabilized_all h4
  have h6 : monthlySource S2 = monthlySource S1 := by
    rw [hS2eq]
    exact monthlySource_upsertAll (fun m hm => (mem_monthlyRows hm).2) S1
  have h7 : monthlyRows S2 = monthlyRows S1 := monthlyRows_congr h6
  have h8 : ∀ m ∈ monthlyRows S1, Stabilized S2 m := by
    intro m hm
    rw [hS2eq]
    exact stabilized_upsertAll_each (monthlyRows_keys_nodup S1) S1 m hm
  unfold monthlyStep
  rw [h5, h7]
  exact upsertAll_of_stabilized_all h8

/-! ## C8 -/

theorem dailyGroupKey_eq_of_sriKey_eq {x x' : SriRow}
    (h : sriKey x = sriKey x') : dailyGroupKey x = dailyGroupKey x' := by
  unfold dailyGroupKey
  rw [show x.route_name = x'.route_name from congrArg SriKey.route_name h,
    show x.direction = x'.direction from congrArg SriKey.direction h,
    show x.operator = x'.operator from congrArg SriKey.operator h,
    show x.year = x'.year from congrArg SriKey.year h,
    show x.month = x'.month from congrArg SriKey.month h,
    show x.day_of_week = x'.day_of_week from congrArg SriKey.day_of_week h]

theorem sum_obs_filter_le {k : DailyKey} {l l' : List SriRow}
    (h : List.Forall₂ (fun x x' => sriKey x = sriKey x' ∧
      x.observation_count ≤ x'.observation_count) l l') :
    ((l.filter (fun x => dailyGroupKey x = k)).map (·.observation_count)).sum ≤
      ((l'.filter (fun x => dailyGroupKey x = k)).map (·.observation_count)).sum := by
  induction h with
  | nil => exact le_refl _
  | @cons a b l₁ l₂ hab htail ih =>
    obtain ⟨hk, hobs⟩ := hab
    by_cases hp : dailyGroupKey a = k
    · have hp' : dailyGroupKey b = k := by
        rw [← dailyGroupKey_eq_of_sriKey_eq hk]; exact hp
      simp only [List.filter_cons, hp, hp', decide_eq_true_eq, if_true,
        List.map_cons, List.sum_cons]
      exact Nat.add_le_add hobs ih
    · have hp' : ¬ dailyGroupKey b = k := by
        rw [← dailyGroupKey_eq_of_sriKey_eq hk]; exact hp
      simp only [List.filter_cons, hp, hp', if_false]
      exact ih

theorem mkDailyRow_obs (k : DailyKey) (ch : List SriRow) :
    (mkDailyRow k ch).observation_count =
      (ch.map (·.observation_count)).sum := rfl

/-- C8: observation_count never decreases under either cited upsert.
The incremental headway-pattern merge adds the incoming batch count to
the stored count, so the stored count cannot shrink; and the daily
coarsening row, which the upsert writes with full-replace semantics,
is the sum of its hourly children's counts, so whenever the hourly
rows of the later state are (up to permutation and newly appeared
rows) the hourly rows of the earlier state with keys preserved and
counts grown, the recomputed daily count of every group is at least
the earlier one. -/
theorem c8_observation_count_monotone :
    (∀ old excluded : HeadwayPattern,
      old.observation_count ≤ (mergeHeadwayPattern old excluded).observation_count) ∧
    (∀ (s s' grown extra : List SriRow) (k : DailyKey),
      (dailySource s').Perm (grown ++ extra) →
      List.Forall₂ (fun x x' => sriKey x = sriKey x' ∧
        x.observation_count ≤ x'.observation_count) (dailySource s) grown →
      (mkDailyRow k ((dailySource s).filter (fun x => dailyGroupKey x = k))).observation_count ≤
        (mkDailyRow k ((dailySource s').filter (fun x => dailyGroupKey x = k))).observation_count) := by
  constructor
  · intro old excluded
    show old.observation_count ≤ old.observation_count + excluded.observation_count
    exact Nat.le_add_right _ _
  · intro s s' grown extra k hperm hfa
    rw [mkDailyRow_obs, mkDailyRow_obs]
    have h1 := sum_obs_filter_le (k := k) hfa
    have hp := (hperm.filter (fun x => decide (dailyGroupKey x = k))).map
      (·.observation_count)
    have h2 := hp.sum_eq
    rw [List.filter_append, List.map_append, List.sum_append] at h2
    calc ((dailySource s).filter (fun x => dailyGroupKey x = k) |>.map
          (·.observation_count)).sum
        ≤ (grown.filter (fun x => dailyGroupKey x = k) |>.map
          (·.observation_count)).sum := h1
      _ ≤ (grown.filter (fun x => dailyGroupKey x = k) |>.map
            (·.observation_count)).sum +
          (extra.filter (fun x => dailyGroupKey x = k) |>.map
            (·.observation_count)).sum := Nat.le_add_right _ _
      _ = ((dailySource s').filter (fun x => dailyGroupKey x = k) |>.map
          (·.observation_count)).sum := h2.symm

set_option maxRecDepth 8000 in
/-- C8 witness: one hourly row growing from 3 to 5 observations; the
recomputed daily count (5) is at least the earlier one (3). -/
theorem c8_observation_count_monotone_witness :
    (mkDailyRow (dailyGroupKey c8Row)
        ((dailySource [c8Row]).filter
          (fun x => dailyGroupKey x = dailyGroupKey c8Row))).observation_count ≤
      (mkDailyRow (dailyGroupKey c8Row)
        ((dailySource [c8RowGrown]).filter
          (fun x => dailyGroupKey x = dailyGroupKey c8Row))).observation_count := by
  apply c8_observation_count_monotone.2 [c8Row] [c8RowGrown] [c8RowGrown] []
    (dailyGroupKey c8Row)
  · have h : dailySource [c8RowGrown] = [c8RowGrown] := by
      with_unfolding_all decide
    rw [h, List.append_nil]
  · have h : dailySource [c8Row] = [c8Row] := by
      with_unfolding_all decide
    rw [h]
    exact List.Forall₂.cons
      ⟨by with_unfolding_all decide, by with_unfolding_all decide⟩
      List.Forall₂.nil

end PTAnalytics
